import Mathlib

/-!
Shallow embedding of the `rigging_lib` repository (`rig_helpers` package) and
proofs about its attribute, curve and matrix helper functions.

The Python code is glue over the Maya `cmds` host API.  We model the host's
scene graph explicitly (nodes, attributes, connections) and each `cmds`
mutation as a `HostCmd` applied by `applyCmd`; each helper function is
translated line by line from the source and returns both the outcome
(`Except PyErr ...`, mirroring Python exceptions) and the list of host
mutation commands it issued, in order, including a trailing command whose
host-side application failed.
-/

/-- Python-level exception outcomes of a helper call.  `valueError`,
`runtimeError`, `typeError` and `exception` mirror the Python exception
classes raised by the source; `hostError` marks an error raised from inside a
`cmds` call (the host rejecting a command). -/
inductive PyErr
  | valueError (msg : String)
  | runtimeError (msg : String)
  | typeError (msg : String)
  | exception (msg : String)
  | hostError (msg : String)
deriving DecidableEq, Repr

/-- A plug `node.attr`, the `'{}.{}'.format(node, attr)` strings of the
source. -/
structure Plug where
  node : String
  attr : String
deriving DecidableEq, Repr

/-- One attribute slot on a node: value, lock/keyable/channel-box flags, host
data type (e.g. `"message"`, `"string"`, `"double"`), queried default value,
and the `settable` / `userDefined` host predicates. -/
structure AttrData where
  name : String
  value : ℚ
  locked : Bool
  keyable : Bool
  channelBox : Bool
  attrType : String
  defaultValue : ℚ
  settable : Bool
  userDefined : Bool
deriving DecidableEq, Repr

/-- A scene node: a name and its attribute list. -/
structure NodeData where
  name : String
  attrs : List AttrData
deriving DecidableEq, Repr

/-- The host scene graph as seen by the attribute helpers: nodes, directed
connections `(source plug, destination plug)`, and the set of plugs the host
reports as read-only (`cmds.ls(plug, readOnly=True)`). -/
structure AttrScene where
  nodes : List NodeData
  connections : List (Plug × Plug)
  readOnlyPlugs : List Plug
deriving DecidableEq, Repr

def AttrScene.findNode (s : AttrScene) (n : String) : Option NodeData :=
  s.nodes.find? (fun nd => nd.name == n)

def AttrScene.findAttr (s : AttrScene) (n a : String) : Option AttrData :=
  (s.findNode n).bind (fun nd => nd.attrs.find? (fun ad => ad.name == a))

/-- Host query `cmds.objExists(node)`. -/
def objExistsNode (s : AttrScene) (n : String) : Bool :=
  (s.findNode n).isSome

/-- Host query `cmds.objExists('{}.{}'.format(node, attr))`, also the model of
`cmds.attributeQuery(attr, node=node, exists=True)`. -/
def objExistsPlug (s : AttrScene) (n a : String) : Bool :=
  (s.findAttr n a).isSome

/-- Host mutation commands issued by the attribute helpers, one constructor
per `cmds` call shape appearing in the source. -/
inductive HostCmd
  | setAttrValue (p : Plug) (v : ℚ)
  | setAttrLock (p : Plug) (lock : Bool)
  | setAttrKeyable (p : Plug) (keyable : Bool)
  | setAttrLockKeyable (p : Plug) (lock keyable : Bool)
  | setAttrKeyableChannelBox (p : Plug) (keyable channelBox : Bool)
  | setAttrChannelBox (p : Plug) (channelBox : Bool)
  | setAttrLockChannelBox (p : Plug) (lock channelBox : Bool)
  | addAttrCmd (node : String) (attr : String)
  | deleteAttrCmd (node : String) (attr : String)
  | connectAttrCmd (src dst : Plug) (force : Bool)
  | disconnectAttrCmd (src dst : Plug)
  | deleteInputConnectionsAndNodes (p : Plug)
deriving DecidableEq, Repr

/-- Update the named attribute on the named node; `none` when the plug does
not exist (the host rejects the command). -/
def AttrScene.updateAttr (s : AttrScene) (n a : String) (f : AttrData → AttrData) :
    Option AttrScene :=
  if objExistsPlug s n a then
    some { s with
      nodes := s.nodes.map (fun nd =>
        if nd.name == n then
          { nd with attrs := nd.attrs.map (fun ad => if ad.name == a then f ad else ad) }
        else nd) }
  else none

/-- Sources feeding the destination plug `p` directly. -/
def plugSources (conns : List (Plug × Plug)) (p : Plug) : List String :=
  (conns.filter (fun e => e.2 == p)).map (fun e => e.1.node)

/-- One round of node-level backwards closure: nodes with an edge into a node
already in `acc`. -/
def upstreamClosure (conns : List (Plug × Plug)) : Nat → List String → List String
  | 0, acc => acc
  | fuel + 1, acc =>
    let new := ((conns.filter
        (fun e => decide (e.2.node ∈ acc) && !(decide (e.1.node ∈ acc)))).map
        (fun e => e.1.node)).eraseDups
    if new.isEmpty then acc else upstreamClosure conns fuel (acc ++ new)

/-- The upstream subgraph of nodes transitively feeding the plug `p`:
the direct sources of `p`, closed backwards over node-level edges.  Models
what `cmds.delete(plug, inputConnectionsAndNodes=True)` removes. -/
def upstreamNodes (s : AttrScene) (p : Plug) : List String :=
  upstreamClosure s.connections s.connections.length
    (plugSources s.connections p).eraseDups

/-- Host-side semantics of each mutation command.  `error` models the host
rejecting the command (missing plug, missing connection, ...), which
surfaces in Python as a `cmds` RuntimeError. -/
def applyCmd (s : AttrScene) : HostCmd → Except String AttrScene
  | .setAttrValue p v =>
    match s.updateAttr p.node p.attr (fun ad => { ad with value := v }) with
    | some s2 => .ok s2
    | none => .error "setAttr: attribute not found"
  | .setAttrLock p lock =>
    match s.updateAttr p.node p.attr (fun ad => { ad with locked := lock }) with
    | some s2 => .ok s2
    | none => .error "setAttr: attribute not found"
  | .setAttrKeyable p k =>
    match s.updateAttr p.node p.attr (fun ad => { ad with keyable := k }) with
    | some s2 => .ok s2
    | none => .error "setAttr: attribute not found"
  | .setAttrLockKeyable p lock k =>
    match s.updateAttr p.node p.attr
        (fun ad => { ad with locked := lock, keyable := k }) with
    | some s2 => .ok s2
    | none => .error "setAttr: attribute not found"
  | .setAttrKeyableChannelBox p k cb =>
    match s.updateAttr p.node p.attr
        (fun ad => { ad with keyable := k, channelBox := cb }) with
    | some s2 => .ok s2
    | none => .error "setAttr: attribute not found"
  | .setAttrChannelBox p cb =>
    match s.updateAttr p.node p.attr (fun ad => { ad with channelBox := cb }) with
    | some s2 => .ok s2
    | none => .error "setAttr: attribute not found"
  | .setAttrLockChannelBox p lock cb =>
    match s.updateAttr p.node p.attr
        (fun ad => { ad with locked := lock, channelBox := cb }) with
    | some s2 => .ok s2
    | none => .error "setAttr: attribute not found"
  | .addAttrCmd n a =>
    if objExistsNode s n then
      if objExistsPlug s n a then .error "addAttr: attribute already exists"
      else
        .ok { s with
          nodes := s.nodes.map (fun nd =>
            if nd.name == n then
              { nd with attrs := nd.attrs ++
                [{ name := a, value := 0, locked := false, keyable := false,
                   channelBox := false, attrType := "double", defaultValue := 0,
                   settable := true, userDefined := true }] }
            else nd) }
    else .error "addAttr: node not found"
  | .deleteAttrCmd n a =>
    if objExistsPlug s n a then
      .ok { s with
        nodes := s.nodes.map (fun nd =>
          if nd.name == n then
            { nd with attrs := nd.attrs.filter (fun ad => !(ad.name == a)) }
          else nd) }
    else .error "deleteAttr: attribute not found"
  | .connectAttrCmd src dst force =>
    if objExistsPlug s src.node src.attr then
      if objExistsPlug s dst.node dst.attr then
        if (s.connections.any (fun e => e.2 == dst)) && !force then
          .error "connectAttr: destination already connected"
        else
          .ok { s with
            connections := s.connections.filter (fun e => !(e.2 == dst)) ++ [(src, dst)] }
      else .error "connectAttr: destination plug not found"
    else .error "connectAttr: source plug not found"
  | .disconnectAttrCmd src dst =>
    if (src, dst) ∈ s.connections then
      .ok { s with connections := s.connections.filter (fun e => !(e == (src, dst))) }
    else .error "disconnectAttr: not connected"
  | .deleteInputConnectionsAndNodes p =>
    if objExistsPlug s p.node p.attr then
      let doomed := upstreamNodes s p
      .ok { s with
        nodes := s.nodes.filter (fun nd => !(decide (nd.name ∈ doomed))),
        connections := s.connections.filter
          (fun e => !(decide (e.1.node ∈ doomed)) && !(decide (e.2.node ∈ doomed))
            && !(e.2 == p)) }
    else .error "delete: plug not found"

/-- Outcome of a helper call: the Python result (exception or final scene)
together with the host mutation commands issued. -/
abbrev HRes := (Except PyErr AttrScene) × List HostCmd

/-- Issue one host command: the command is recorded on the trace whether or
not the host accepts it; a host rejection becomes a Python-level error. -/
def issue1 (s : AttrScene) (c : HostCmd) : HRes :=
  match applyCmd s c with
  | .ok s2 => (.ok s2, [c])
  | .error e => (.error (.hostError e), [c])

/-- Issue a sequence of host commands; a rejected command stops the sequence
(the Python exception propagates) with the trace up to and including it. -/
def runCmds (s : AttrScene) : List HostCmd → HRes
  | [] => (.ok s, [])
  | c :: cs =>
    match applyCmd s c with
    | .error e => (.error (.hostError e), [c])
    | .ok s2 =>
      let r := runCmds s2 cs
      (r.1, c :: r.2)

/-- Sequence two traced computations, propagating a Python exception and
concatenating traces (straight-line Python control flow). -/
def andThen (r : HRes) (f : AttrScene → HRes) : HRes :=
  match r with
  | (.error e, tr) => (.error e, tr)
  | (.ok s, tr) =>
    let r2 := f s
    (r2.1, tr ++ r2.2)

/-! ## Shared host queries used by `attribute_helper.py` and `attributes/lib.py` -/

/-- Host query `cmds.connectionInfo(plug, isDestination=True)`. -/
def connectionInfo_isDestination (s : AttrScene) (p : Plug) : Bool :=
  s.connections.any (fun e => e.2 == p)

/-- Host query `cmds.connectionInfo(plug, getExactDestination=True)`; for the
simple (non-compound) plugs modelled here the exact destination is the plug
itself. -/
def connectionInfo_getExactDestination (_s : AttrScene) (p : Plug) : Plug :=
  p

/-- Host query `cmds.connectionInfo(plug, sourceFromDestination=True)`: the
source plug of the incoming connection, when there is one. -/
def connectionInfo_sourceFromDestination (s : AttrScene) (p : Plug) : Option Plug :=
  (s.connections.find? (fun e => e.2 == p)).map (fun e => e.1)

/-- Host query `cmds.ls(plug, readOnly=True)`: the list containing the plug
when the host reports it read-only, else empty. -/
def ls_readOnly (s : AttrScene) (p : Plug) : List Plug :=
  if p ∈ s.readOnlyPlugs then [p] else []

/-- Host query `cmds.getAttr(plug, lock=True)`. -/
def getAttrLock (s : AttrScene) (n a : String) : Except String Bool :=
  match s.findAttr n a with
  | some ad => .ok ad.locked
  | none => .error "getAttr: attribute not found"

/-- Host query `cmds.getAttr(plug, settable=True)`. -/
def getAttrSettable (s : AttrScene) (n a : String) : Except String Bool :=
  match s.findAttr n a with
  | some ad => .ok ad.settable
  | none => .error "getAttr: attribute not found"

/-- Host query `cmds.getAttr(plug, type=True)`. -/
def getAttrType (s : AttrScene) (n a : String) : Except String String :=
  match s.findAttr n a with
  | some ad => .ok ad.attrType
  | none => .error "getAttr: attribute not found"

/-- Host query `cmds.addAttr(plug, query=True, defaultValue=True)`. -/
def addAttrQueryDefault (s : AttrScene) (n a : String) : Except String ℚ :=
  match s.findAttr n a with
  | some ad => .ok ad.defaultValue
  | none => .error "addAttr: attribute not found"

/-- Host query `cmds.listAttr(node, userDefined=True, settable=True)`; Maya
returns `None` for an empty result, modelled as `none`. -/
def listAttrUserDefinedSettable (s : AttrScene) (n : String) : Option (List String) :=
  match s.findNode n with
  | none => none
  | some nd =>
    let l := (nd.attrs.filter (fun ad => ad.userDefined && ad.settable)).map
      (fun ad => ad.name)
    if l.isEmpty then none else some l

/-- The nine transform channels in the order of the nested
`('translate', 'rotate', 'scale')` x `('X', 'Y', 'Z')` loops of the source. -/
def trsChannels : List String :=
  ["translateX", "translateY", "translateZ",
   "rotateX", "rotateY", "rotateZ",
   "scaleX", "scaleY", "scaleZ"]

namespace attribute_helper

/-- `attribute_helper.is_attr`: `cmds.objExists('{}.{}')`. -/
def is_attr (s : AttrScene) (node attr : String) : Bool :=
  objExistsPlug s node attr

/-- `attribute_helper.set_attr`: guard on `is_attr`, then `cmds.setAttr`. -/
def set_attr (s : AttrScene) (node attr : String) (value : ℚ) : HRes :=
  if !(is_attr s node attr) then
    (.error (.valueError "attribute does not exists in node"), [])
  else
    issue1 s (.setAttrValue ⟨node, attr⟩ value)

/-- `attribute_helper.get_attr`: guard on `is_attr`, then `cmds.getAttr`
(a query, no host mutation). -/
def get_attr (s : AttrScene) (node attr : String) : Except PyErr ℚ :=
  if !(is_attr s node attr) then
    .error (.valueError "attribute does not exists in node")
  else
    match s.findAttr node attr with
    | some ad => .ok ad.value
    | none => .error (.hostError "getAttr: attribute not found")

/-- `attribute_helper.add_attr`: raises when the plug already exists, else
`cmds.addAttr` and, when `channel_box`, a follow-up `cmds.setAttr`. -/
def add_attr (s : AttrScene) (node attr : String) (channel_box : Bool) : HRes :=
  if objExistsPlug s node attr then
    (.error (.valueError "attribute already exists in node"), [])
  else
    runCmds s ([HostCmd.addAttrCmd node attr] ++
      (if channel_box then [HostCmd.setAttrChannelBox ⟨node, attr⟩ true] else []))

/-- `attribute_helper.un_lock_attr`: guard, then `cmds.setAttr(..., lock=False)`. -/
def un_lock_attr (s : AttrScene) (node attr : String) : HRes :=
  if !(is_attr s node attr) then
    (.error (.valueError "attribute does not exists in node"), [])
  else
    issue1 s (.setAttrLock ⟨node, attr⟩ false)

/-- `attribute_helper.lock_attr`: guard, then `cmds.setAttr(..., lock=True)`. -/
def lock_attr (s : AttrScene) (node attr : String) : HRes :=
  if !(is_attr s node attr) then
    (.error (.valueError "attribute does not exists in node"), [])
  else
    issue1 s (.setAttrLock ⟨node, attr⟩ true)

/-- `attribute_helper.delete_attr`: guard, `un_lock_attr`, then
`cmds.deleteAttr`. -/
def delete_attr (s : AttrScene) (node attr : String) : HRes :=
  if !(is_attr s node attr) then
    (.error (.valueError "attribute does not exists in node"), [])
  else
    andThen (un_lock_attr s node attr)
      (fun s2 => issue1 s2 (.deleteAttrCmd node attr))

/-- `attribute_helper.toogle_lock_attr`: guard, read the lock flag, set the
opposite. -/
def toogle_lock_attr (s : AttrScene) (node attr : String) : HRes :=
  if !(is_attr s node attr) then
    (.error (.valueError "attribute does not exists in node"), [])
  else
    match getAttrLock s node attr with
    | .error e => (.error (.hostError e), [])
    | .ok lock =>
      let lock_status := if lock then false else true
      issue1 s (.setAttrLock ⟨node, attr⟩ lock_status)

/-- `attribute_helper.hide_attr`: guard, then `cmds.setAttr(..., keyable=False)`. -/
def hide_attr (s : AttrScene) (node attr : String) : HRes :=
  if !(is_attr s node attr) then
    (.error (.valueError "attribute does not exists in node"), [])
  else
    issue1 s (.setAttrKeyable ⟨node, attr⟩ false)

/-- `attribute_helper.un_hide_attr`: guard, then `cmds.setAttr(..., keyable=True)`. -/
def un_hide_attr (s : AttrScene) (node attr : String) : HRes :=
  if !(is_attr s node attr) then
    (.error (.valueError "attribute does not exists in node"), [])
  else
    issue1 s (.setAttrKeyable ⟨node, attr⟩ true)

/-- `attribute_helper.lock_and_hide_attr`: guard, then
`cmds.setAttr(..., lock=True, keyable=False)`. -/
def lock_and_hide_attr (s : AttrScene) (node attr : String) : HRes :=
  if !(is_attr s node attr) then
    (.error (.valueError "attribute does not exists in node"), [])
  else
    issue1 s (.setAttrLockKeyable ⟨node, attr⟩ true false)

/-- `attribute_helper.create_spacer`: raises when the plug already exists,
else `cmds.addAttr` (enum spacer) then `cmds.setAttr(..., lock=True,
channelBox=True)`. -/
def create_spacer (s : AttrScene) (node spacer : String) : HRes :=
  if objExistsPlug s node spacer then
    (.error (.valueError "spacer already exists in node"), [])
  else
    runCmds s [HostCmd.addAttrCmd node spacer,
      HostCmd.setAttrLockChannelBox ⟨node, spacer⟩ true true]

/-- `attribute_helper.delete_connection`: guard on `is_attr`; when the plug is
a destination, disconnect the upstream source if the exact destination is
read-only, else delete the plug's input connections and nodes. -/
def delete_connection (s : AttrScene) (node attr : String) : HRes :=
  if !(is_attr s node attr) then
    (.error (.valueError "attribute does not exists in node"), [])
  else
    if connectionInfo_isDestination s ⟨node, attr⟩ then
      let plug := connectionInfo_getExactDestination s ⟨node, attr⟩
      let read_only := ls_readOnly s plug
      if !read_only.isEmpty then
        match connectionInfo_sourceFromDestination s plug with
        | some source => issue1 s (.disconnectAttrCmd source plug)
        | none => (.error (.hostError "connectionInfo: no source"), [])
      else
        issue1 s (.deleteInputConnectionsAndNodes plug)
    else (.ok s, [])

/-- `attribute_helper.connect_trs`: nine unguarded `cmds.connectAttr` calls,
one per transform channel. -/
def connect_trs (s : AttrScene) (source target : String) (force : Bool) : HRes :=
  runCmds s (trsChannels.map
    (fun ch => HostCmd.connectAttrCmd ⟨source, ch⟩ ⟨target, ch⟩ force))

/-- `attribute_helper.connect_translate`: three unguarded `cmds.connectAttr`
calls. -/
def connect_translate (s : AttrScene) (source target : String) (force : Bool) : HRes :=
  runCmds s ((["translateX", "translateY", "translateZ"]).map
    (fun ch => HostCmd.connectAttrCmd ⟨source, ch⟩ ⟨target, ch⟩ force))

/-- `attribute_helper.connect_rotate`: three unguarded `cmds.connectAttr`
calls. -/
def connect_rotate (s : AttrScene) (source target : String) (force : Bool) : HRes :=
  runCmds s ((["rotateX", "rotateY", "rotateZ"]).map
    (fun ch => HostCmd.connectAttrCmd ⟨source, ch⟩ ⟨target, ch⟩ force))

/-- `attribute_helper.connect_scale`: three unguarded `cmds.connectAttr`
calls. -/
def connect_scale (s : AttrScene) (source target : String) (force : Bool) : HRes :=
  runCmds s ((["scaleX", "scaleY", "scaleZ"]).map
    (fun ch => HostCmd.connectAttrCmd ⟨source, ch⟩ ⟨target, ch⟩ force))

/-- The transform-channel reset targets of `reset_default_values`: scale
channels reset to 1, translate and rotate channels to 0, in loop order. -/
def transformResetValues : List (String × ℚ) :=
  [("translateX", 0), ("translateY", 0), ("translateZ", 0),
   ("rotateX", 0), ("rotateY", 0), ("rotateZ", 0),
   ("scaleX", 1), ("scaleY", 1), ("scaleZ", 1)]

/-- The first loop of `reset_default_values`: for each transform channel,
query `settable` and, when settable, set the reset value. -/
def resetTransformLoop (s : AttrScene) (node : String) :
    List (String × ℚ) → HRes
  | [] => (.ok s, [])
  | (ch, v) :: rest =>
    match getAttrSettable s node ch with
    | .error e => (.error (.hostError e), [])
    | .ok true =>
      match applyCmd s (.setAttrValue ⟨node, ch⟩ v) with
      | .error e => (.error (.hostError e), [.setAttrValue ⟨node, ch⟩ v])
      | .ok s2 =>
        let r := resetTransformLoop s2 node rest
        (r.1, .setAttrValue ⟨node, ch⟩ v :: r.2)
    | .ok false => resetTransformLoop s node rest

/-- The second loop of `reset_default_values`: for each user-defined settable
attribute, skip `message` and `string` types, query the default value, and
set it only when it is truthy (`if default_value:` in the source, i.e.
nonzero). -/
def resetUserAttrsLoop (s : AttrScene) (node : String) : List String → HRes
  | [] => (.ok s, [])
  | a :: rest =>
    match getAttrType s node a with
    | .error e => (.error (.hostError e), [])
    | .ok ty =>
      if ty != "message" then
        if ty != "string" then
          match addAttrQueryDefault s node a with
          | .error e => (.error (.hostError e), [])
          | .ok default_value =>
            if default_value != 0 then
              match applyCmd s (.setAttrValue ⟨node, a⟩ default_value) with
              | .error e =>
                (.error (.hostError e), [.setAttrValue ⟨node, a⟩ default_value])
              | .ok s2 =>
                let r := resetUserAttrsLoop s2 node rest
                (r.1, .setAttrValue ⟨node, a⟩ default_value :: r.2)
            else resetUserAttrsLoop s node rest
        else resetUserAttrsLoop s node rest
      else resetUserAttrsLoop s node rest

/-- `attribute_helper.reset_default_values`: guard on node existence, reset
the settable transform channels, then reset the user-defined settable
attributes (the user-attribute list is queried after the transform loop). -/
def reset_default_values (s : AttrScene) (node : String) : HRes :=
  if !(objExistsNode s node) then
    (.error (.valueError "node does not exists in the scene"), [])
  else
    andThen (resetTransformLoop s node transformResetValues) (fun s2 =>
      match listAttrUserDefinedSettable s2 node with
      | some attrs => resetUserAttrsLoop s2 node attrs
      | none => (.ok s2, []))

end attribute_helper

namespace attributes_lib

/-- Outcome of an `AttributeHelper` method call: Python exception or a pair of
the returned value (`some false` for `return False`, `none` for an implicit
`None` / non-boolean return) and the resulting scene, plus the issued host
commands. -/
abbrev LRes := (Except PyErr (Option Bool × AttrScene)) × List HostCmd

/-- Issue one host command from a class method (returning `None`). -/
def issueL (s : AttrScene) (c : HostCmd) : LRes :=
  match applyCmd s c with
  | .ok s2 => (.ok (none, s2), [c])
  | .error e => (.error (.hostError e), [c])

namespace AttributeHelper

/-- `AttributeHelper.attribute_exists`:
`cmds.attributeQuery(attribute_name, node=self.obj, exists=True)`. -/
def attribute_exists (s : AttrScene) (obj attribute_name : String) : Bool :=
  objExistsPlug s obj attribute_name

/-- `AttributeHelper.is_attribute_locked`: `False` when the attribute does not
exist, else the lock flag. -/
def is_attribute_locked (s : AttrScene) (obj attribute_name : String) : Bool :=
  if !(attribute_exists s obj attribute_name) then false
  else
    match s.findAttr obj attribute_name with
    | some ad => ad.locked
    | none => false

/-- `AttributeHelper.is_attribute_settable`: `False` when the attribute does
not exist, else the host `settable` flag. -/
def is_attribute_settable (s : AttrScene) (obj attribute_name : String) : Bool :=
  if !(attribute_exists s obj attribute_name) then false
  else
    match s.findAttr obj attribute_name with
    | some ad => ad.settable
    | none => false

/-- `AttributeHelper.set_attribute_value`: returns `False` (no raise, no host
command) when the attribute does not exist, else `cmds.setAttr`. -/
def set_attribute_value (s : AttrScene) (obj attribute_name : String) (value : ℚ) :
    LRes :=
  if !(attribute_exists s obj attribute_name) then
    (.ok (some false, s), [])
  else
    issueL s (.setAttrValue ⟨obj, attribute_name⟩ value)

/-- `AttributeHelper.set_attribute_keyable`: returns `False` when the
attribute EXISTS (inverted guard in the source), else issues
`cmds.setAttr(..., keyable=keyable, channelBox=not keyable)`. -/
def set_attribute_keyable (s : AttrScene) (obj attribute_name : String)
    (keyable : Bool) : LRes :=
  if attribute_exists s obj attribute_name then
    (.ok (some false, s), [])
  else
    issueL s (.setAttrKeyableChannelBox ⟨obj, attribute_name⟩ keyable (!keyable))

/-- `AttributeHelper.lock_attribute`: returns `False` (no raise, no host
command) when the attribute does not exist, else
`cmds.setAttr(..., lock=lock)`. -/
def lock_attribute (s : AttrScene) (obj attribute_name : String) (lock : Bool) :
    LRes :=
  if !(attribute_exists s obj attribute_name) then
    (.ok (some false, s), [])
  else
    issueL s (.setAttrLock ⟨obj, attribute_name⟩ lock)

/-- `AttributeHelper.hide_attribute`: returns `None` (no raise, no host
command) when the attribute does not exist, else
`cmds.setAttr(..., keyable=not hide, channelBox=not hide)`. -/
def hide_attribute (s : AttrScene) (obj attribute_name : String) (hide : Bool) :
    LRes :=
  if !(attribute_exists s obj attribute_name) then
    (.ok (none, s), [])
  else
    issueL s (.setAttrKeyableChannelBox ⟨obj, attribute_name⟩ (!hide) (!hide))

/-- `AttributeHelper.add_attribute`: raises `RuntimeError` when the attribute
already exists, else `cmds.addAttr(self.obj, longName=attribute_name)`. -/
def add_attribute (s : AttrScene) (obj attribute_name : String) : LRes :=
  if attribute_exists s obj attribute_name then
    (.error (.runtimeError "Attribute already exists in object"), [])
  else
    issueL s (.addAttrCmd obj attribute_name)

/-- `AttributeHelper.delete_attribute`: raises `RuntimeError` when the
attribute does not exist, else unlocks via `lock_attribute(..., lock=False)`
and issues `cmds.deleteAttr`. -/
def delete_attribute (s : AttrScene) (obj attribute_name : String) : LRes :=
  if !(attribute_exists s obj attribute_name) then
    (.error (.runtimeError "Attribute no exists in object"), [])
  else
    match lock_attribute s obj attribute_name false with
    | (.error e, tr) => (.error e, tr)
    | (.ok (_, s2), tr) =>
      match applyCmd s2 (.deleteAttrCmd obj attribute_name) with
      | .error e => (.error (.hostError e), tr ++ [.deleteAttrCmd obj attribute_name])
      | .ok s3 => (.ok (none, s3), tr ++ [.deleteAttrCmd obj attribute_name])

end AttributeHelper

/-- The loop body of `attributes_lib.connect_trs`: per channel, connect only
when neither the source nor the target channel is locked
(`is_attribute_locked` is `False` for a missing attribute, so no existence
guard is enforced). -/
def connect_trs_loop (s : AttrScene) (source target : String) (force : Bool) :
    List String → HRes
  | [] => (.ok s, [])
  | ch :: rest =>
    if !(AttributeHelper.is_attribute_locked s source ch)
        && !(AttributeHelper.is_attribute_locked s target ch) then
      match applyCmd s (.connectAttrCmd ⟨source, ch⟩ ⟨target, ch⟩ force) with
      | .error e =>
        (.error (.hostError e), [.connectAttrCmd ⟨source, ch⟩ ⟨target, ch⟩ force])
      | .ok s2 =>
        let r := connect_trs_loop s2 source target force rest
        (r.1, .connectAttrCmd ⟨source, ch⟩ ⟨target, ch⟩ force :: r.2)
    else connect_trs_loop s source target force rest

/-- `attributes_lib.connect_trs`: the nine transform channels, each connected
unless locked on either end; no attribute-existence check. -/
def connect_trs (s : AttrScene) (source target : String) (force : Bool) : HRes :=
  connect_trs_loop s source target force trsChannels

/-- The loop body of `attributes_lib.connect_translate` (and of
`connect_rotate` / `connect_scale`): per channel, connect unless the target
channel is locked. -/
def connect_axis_loop (s : AttrScene) (source target : String) (force : Bool) :
    List String → HRes
  | [] => (.ok s, [])
  | ch :: rest =>
    if !(AttributeHelper.is_attribute_locked s target ch) then
      match applyCmd s (.connectAttrCmd ⟨source, ch⟩ ⟨target, ch⟩ force) with
      | .error e =>
        (.error (.hostError e), [.connectAttrCmd ⟨source, ch⟩ ⟨target, ch⟩ force])
      | .ok s2 =>
        let r := connect_axis_loop s2 source target force rest
        (r.1, .connectAttrCmd ⟨source, ch⟩ ⟨target, ch⟩ force :: r.2)
    else connect_axis_loop s source target force rest

/-- `attributes_lib.connect_translate`: translate channels, each connected
unless the target channel is locked; no attribute-existence check. -/
def connect_translate (s : AttrScene) (source target : String) (force : Bool) : HRes :=
  connect_axis_loop s source target force ["translateX", "translateY", "translateZ"]

/-- `attributes_lib.connect_rotate`. -/
def connect_rotate (s : AttrScene) (source target : String) (force : Bool) : HRes :=
  connect_axis_loop s source target force ["rotateX", "rotateY", "rotateZ"]

/-- `attributes_lib.connect_scale`. -/
def connect_scale (s : AttrScene) (source target : String) (force : Bool) : HRes :=
  connect_axis_loop s source target force ["scaleX", "scaleY", "scaleZ"]

/-- `attributes_lib.delete_connection`: `RuntimeError` guard via
`attribute_exists`, then the same two-case policy as
`attribute_helper.delete_connection`. -/
def delete_connection (s : AttrScene) (node attribute_name : String) : HRes :=
  if !(AttributeHelper.attribute_exists s node attribute_name) then
    (.error (.runtimeError "Attribute no exists in object"), [])
  else
    if connectionInfo_isDestination s ⟨node, attribute_name⟩ then
      let plug := connectionInfo_getExactDestination s ⟨node, attribute_name⟩
      let read_only := ls_readOnly s plug
      if !read_only.isEmpty then
        match connectionInfo_sourceFromDestination s plug with
        | some source => issue1 s (.disconnectAttrCmd source plug)
        | none => (.error (.hostError "connectionInfo: no source"), [])
      else
        issue1 s (.deleteInputConnectionsAndNodes plug)
    else (.ok s, [])

end attributes_lib

/-! ## Curve helper (`curve_helper.py`) -/

/-- A node as seen by the curve helpers: host object type, child shape names
(`cmds.listRelatives(node, shapes=True)`), CV count (`getAttr '.cp' size`),
arc length (`cmds.arclen`), and the queried translation (`cmds.xform`
query). -/
structure CNode where
  name : String
  objType : String
  shapes : List String
  cvs : Nat
  arclenVal : ℚ
  pos : ℚ × ℚ × ℚ
  inPos : ℚ × ℚ × ℚ
deriving DecidableEq, Repr

/-- The scene as seen by the curve helpers: nodes and connections. -/
structure CurveScene where
  nodes : List CNode
  connections : List (Plug × Plug)
deriving DecidableEq, Repr

def CurveScene.findNode (s : CurveScene) (n : String) : Option CNode :=
  s.nodes.find? (fun nd => nd.name == n)

/-- Host query `cmds.objExists` on the curve scene. -/
def curveObjExists (s : CurveScene) (n : String) : Bool :=
  (s.findNode n).isSome

/-- Host query `cmds.listRelatives(node, shapes=True)`; Maya returns `None`
for a node with no shape children, modelled as `none`. -/
def listRelativesShapes (s : CurveScene) (n : String) : Option (List String) :=
  match s.findNode n with
  | none => none
  | some nd => if nd.shapes.isEmpty then none else some nd.shapes

namespace curve_helper

/-- `curve_helper.node_exists`: raises `ValueError` when the node is
missing. -/
def node_exists (s : CurveScene) (node : String) : Except PyErr Unit :=
  if !(curveObjExists s node) then
    .error (.valueError "node does not exist in the scene")
  else .ok ()

/-- `curve_helper.is_nurbs_curve`: `node_exists` guard (raising), then
`cmds.objectType(crv) != 'nurbsCurve'`. -/
def is_nurbs_curve (s : CurveScene) (crv : String) : Except PyErr Bool :=
  match node_exists s crv with
  | .error e => .error e
  | .ok _ =>
    match s.findNode crv with
    | some nd => .ok (nd.objType == "nurbsCurve")
    | none => .error (.hostError "objectType: node not found")

/-- The curve-resolution block inlined in `get_cvs_number`,
`get_curve_length` and `get_nearest_point_on_curve` (`crv = node; if not
is_nurbs_curve(crv): crv = cmds.listRelatives(node, shapes=True)[0]; if not
is_nurbs_curve(crv): raise ValueError`).  Subscripting the `None` returned by
`listRelatives` for a shape-less node is a Python `TypeError`. -/
def resolveCurve (s : CurveScene) (node : String) : Except PyErr String :=
  match is_nurbs_curve s node with
  | .error e => .error e
  | .ok true => .ok node
  | .ok false =>
    match listRelativesShapes s node with
    | none => .error (.typeError "NoneType object is not subscriptable")
    | some l =>
      let crv := l.headD ""
      match is_nurbs_curve s crv with
      | .error e => .error e
      | .ok true => .ok crv
      | .ok false => .error (.valueError "node is not a nurbsCurve")

/-- `curve_helper.get_cvs_number`: `node_exists` guard, curve resolution,
then `cmds.getAttr('{}.cp', size=True)` on the resolved shape. -/
def get_cvs_number (s : CurveScene) (node : String) : Except PyErr Nat :=
  match node_exists s node with
  | .error e => .error e
  | .ok _ =>
    match resolveCurve s node with
    | .error e => .error e
    | .ok crv =>
      match s.findNode crv with
      | some nd => .ok nd.cvs
      | none => .error (.hostError "getAttr: node not found")

/-- `curve_helper.get_curve_length`: `node_exists` guard, curve resolution,
then `cmds.arclen(crv)` on the resolved shape. -/
def get_curve_length (s : CurveScene) (node : String) : Except PyErr ℚ :=
  match node_exists s node with
  | .error e => .error e
  | .ok _ =>
    match resolveCurve s node with
    | .error e => .error e
    | .ok crv =>
      match s.findNode crv with
      | some nd => .ok nd.arclenVal
      | none => .error (.hostError "arclen: node not found")

/-- The `position` / `parameter` dictionary returned by
`get_nearest_point_on_curve`. -/
structure NPCResult where
  position : ℚ × ℚ × ℚ
  parameter : ℚ
deriving DecidableEq, Repr

/-- Host query `cmds.xform(source, query=True, translation=True, ...)`. -/
def xformQueryTranslation (s : CurveScene) (n : String) :
    Except String (ℚ × ℚ × ℚ) :=
  match s.findNode n with
  | some nd => .ok nd.pos
  | none => .error "xform: node not found"

/-- Host command `cmds.createNode('nearestPointOnCurve')`; the host picks the
fresh name `temp_npc`. -/
def createNodeNPC (s : CurveScene) (temp_npc : String) : CurveScene :=
  { s with nodes := s.nodes ++
    [{ name := temp_npc, objType := "nearestPointOnCurve", shapes := [],
       cvs := 0, arclenVal := 0, pos := (0, 0, 0), inPos := (0, 0, 0) }] }

/-- Host command `cmds.connectAttr` on the curve scene. -/
def curveConnectAttr (s : CurveScene) (src dst : Plug) : CurveScene :=
  { s with connections := s.connections ++ [(src, dst)] }

/-- Host command `cmds.setAttr('{}.inPosition', ..., type='double3')`. -/
def curveSetInPosition (s : CurveScene) (n : String) (v : ℚ × ℚ × ℚ) :
    CurveScene :=
  { s with nodes := s.nodes.map (fun nd =>
      if nd.name == n then { nd with inPos := v } else nd) }

/-- Host command `cmds.delete(node)`: removes the node and every connection
incident to it. -/
def curveDeleteNode (s : CurveScene) (n : String) : CurveScene :=
  { s with
    nodes := s.nodes.filter (fun nd => !(nd.name == n)),
    connections := s.connections.filter
      (fun e => !(e.1.node == n) && !(e.2.node == n)) }

/-- `curve_helper.get_nearest_point_on_curve`: existence guards, curve
resolution, query of the source translation, then the scoped temp-node
sequence: create `nearestPointOnCurve`, connect the curve's `worldSpace` into
it, set `inPosition`, read `position` and `parameter` (the host's
nearest-point computation, modelled by `oracle` applied to the resolved curve
and the query position), delete the temp node, return the dictionary.
`temp_npc` is the host-chosen name of the temporary node; the `world_space`
flag of the source only selects the space of the queried translation and is
absorbed into `CNode.pos`. -/
def get_nearest_point_on_curve (s : CurveScene) (node source : String)
    (temp_npc : String) (oracle : String → (ℚ × ℚ × ℚ) → NPCResult) :
    Except PyErr (NPCResult × CurveScene) :=
  match node_exists s node with
  | .error e => .error e
  | .ok _ =>
    match node_exists s source with
    | .error e => .error e
    | .ok _ =>
      match resolveCurve s node with
      | .error e => .error e
      | .ok crv =>
        match xformQueryTranslation s source with
        | .error e => .error (.hostError e)
        | .ok source_pos =>
          let s1 := createNodeNPC s temp_npc
          let s2 := curveConnectAttr s1 ⟨crv, "worldSpace"⟩ ⟨temp_npc, "inputCurve"⟩
          let s3 := curveSetInPosition s2 temp_npc source_pos
          let r := oracle crv source_pos
          let s4 := curveDeleteNode s3 temp_npc
          .ok (r, s4)

end curve_helper

/-! ## Matrix helper (`matrix_helper.py`) -/

/-- A node as seen by the world-space transform helpers: world position,
rotation and scale as queried and written by `cmds.xform(...,
worldSpace=True)`. -/
structure XNode where
  name : String
  wpos : ℚ × ℚ × ℚ
  wrot : ℚ × ℚ × ℚ
  wscl : ℚ × ℚ × ℚ
deriving DecidableEq, Repr

/-- The scene as seen by the world-space transform helpers. -/
structure XScene where
  nodes : List XNode
deriving DecidableEq, Repr

def XScene.findNode (s : XScene) (n : String) : Option XNode :=
  s.nodes.find? (fun nd => nd.name == n)

namespace matrix_helper

/-- `matrix_helper.check_node_exists`: raises `ValueError` when the node is
missing. -/
def check_node_exists (s : XScene) (node : String) : Except PyErr Unit :=
  if (s.findNode node).isSome then .ok ()
  else .error (.valueError "node does not exist in the scene")

/-- `matrix_helper.get_position`: guard, then
`cmds.xform(node, query=True, translation=True, worldSpace=True)`. -/
def get_position (s : XScene) (node : String) : Except PyErr (ℚ × ℚ × ℚ) :=
  match check_node_exists s node with
  | .error e => .error e
  | .ok _ =>
    match s.findNode node with
    | some nd => .ok nd.wpos
    | none => .error (.hostError "xform: node not found")

/-- `matrix_helper.get_rotation`. -/
def get_rotation (s : XScene) (node : String) : Except PyErr (ℚ × ℚ × ℚ) :=
  match check_node_exists s node with
  | .error e => .error e
  | .ok _ =>
    match s.findNode node with
    | some nd => .ok nd.wrot
    | none => .error (.hostError "xform: node not found")

/-- `matrix_helper.get_scale`. -/
def get_scale (s : XScene) (node : String) : Except PyErr (ℚ × ℚ × ℚ) :=
  match check_node_exists s node with
  | .error e => .error e
  | .ok _ =>
    match s.findNode node with
    | some nd => .ok nd.wscl
    | none => .error (.hostError "xform: node not found")

/-- `matrix_helper.set_position`: guard, then `cmds.xform(node,
translation=position, absolute=True, worldSpace=True)` — sets the world
position, leaving world rotation and scale untouched. -/
def set_position (s : XScene) (node : String) (position : ℚ × ℚ × ℚ) :
    Except PyErr XScene :=
  match check_node_exists s node with
  | .error e => .error e
  | .ok _ =>
    .ok { s with nodes := s.nodes.map (fun nd =>
      if nd.name == node then { nd with wpos := position } else nd) }

/-- `matrix_helper.set_rotation`. -/
def set_rotation (s : XScene) (node : String) (rotation : ℚ × ℚ × ℚ) :
    Except PyErr XScene :=
  match check_node_exists s node with
  | .error e => .error e
  | .ok _ =>
    .ok { s with nodes := s.nodes.map (fun nd =>
      if nd.name == node then { nd with wrot := rotation } else nd) }

/-- `matrix_helper.set_scale`. -/
def set_scale (s : XScene) (node : String) (scale : ℚ × ℚ × ℚ) :
    Except PyErr XScene :=
  match check_node_exists s node with
  | .error e => .error e
  | .ok _ =>
    .ok { s with nodes := s.nodes.map (fun nd =>
      if nd.name == node then { nd with wscl := scale } else nd) }

/-- `matrix_helper.put_in_place`: existence guards, then the three optional
copy steps (position, rotation, scale), each a world-space get on the source
followed by a world-space set on the target. -/
def put_in_place (s : XScene) (source target : String)
    (pos rot scl : Bool) : Except PyErr XScene :=
  match check_node_exists s source with
  | .error e => .error e
  | .ok _ =>
    match check_node_exists s target with
    | .error e => .error e
    | .ok _ =>
      let step1 : Except PyErr XScene :=
        if pos then
          match get_position s source with
          | .error e => .error e
          | .ok target_pos => set_position s target target_pos
        else .ok s
      match step1 with
      | .error e => .error e
      | .ok s1 =>
        let step2 : Except PyErr XScene :=
          if rot then
            match get_rotation s1 source with
            | .error e => .error e
            | .ok target_rot => set_rotation s1 target target_rot
          else .ok s1
        match step2 with
        | .error e => .error e
        | .ok s2 =>
          if scl then
            match get_scale s2 source with
            | .error e => .error e
            | .ok target_scl => set_scale s2 target target_scl
          else .ok s2

end matrix_helper

/-! ## Offset-parent-matrix baking (`matrix_helper.py`, C3 view) -/

/-- 4x4 host matrices (`OpenMaya.MMatrix`, 16 doubles, row-vector
convention). -/
abbrev M4 := Matrix (Fin 4) (Fin 4) ℚ

/-- `matrix_helper.IDENTITY_MATRIX`: the 16-double identity matrix. -/
def IDENTITY_MATRIX : M4 := 1

/-- A transform node as seen by the baking helper: local matrix
(`cmds.xform(..., matrix=True, worldSpace=False)`), `offsetParentMatrix`
attribute, and the accumulated parent world transform. -/
structure BNode where
  name : String
  localMatrix : M4
  offsetParentMatrix : M4
  parentMatrix : M4

/-- The scene as seen by the baking helper, with the host major version
(`cmds.about(version=True)` major component). -/
structure BScene where
  version : Nat
  nodes : List BNode

def BScene.findNode (s : BScene) (n : String) : Option BNode :=
  s.nodes.find? (fun nd => nd.name == n)

/-- Host mutation commands issued by the baking helper. -/
inductive MCmd
  | xformSetLocalMatrix (node : String) (m : M4)
  | setAttrOffsetParentMatrix (node : String) (m : M4)

/-- Host command `cmds.xform(node, matrix=m, worldSpace=False,
absolute=True)`: writes the node's local matrix. -/
def bSetLocal (s : BScene) (node : String) (m : M4) : BScene :=
  { s with nodes := s.nodes.map (fun nd =>
      if nd.name == node then { nd with localMatrix := m } else nd) }

/-- Host command `cmds.setAttr('{}.offsetParentMatrix', m, type="matrix")`. -/
def bSetOPM (s : BScene) (node : String) (m : M4) : BScene :=
  { s with nodes := s.nodes.map (fun nd =>
      if nd.name == node then { nd with offsetParentMatrix := m } else nd) }

/-- The node's resultant world transform in the host's evaluation order:
local matrix, then offset parent matrix, then the parent's world
transform. -/
def worldMatrix (b : BNode) : M4 :=
  b.localMatrix * b.offsetParentMatrix * b.parentMatrix

namespace matrix_helper

/-- `matrix_helper.bake_transform_to_offset_parent_matrix`: raises below host
version 2020; `check_node_exists` guard; reads the local and offset-parent
matrices, composes `local_matrix * offset_parent_matrix`, resets the local
matrix to `IDENTITY_MATRIX`, and writes the composed product to the
`offsetParentMatrix` attribute. -/
def bake_transform_to_offset_parent_matrix (s : BScene) (node : String) :
    (Except PyErr BScene) × List MCmd :=
  if !(decide (2020 ≤ s.version)) then
    (.error (.exception "You need a version of maya 2020 or higher"), [])
  else
    match s.findNode node with
    | none => (.error (.valueError "node does not exist in the scene"), [])
    | some b =>
      let local_matrix := b.localMatrix
      let offset_parent_matrix := b.offsetParentMatrix
      let baked_matrix := local_matrix * offset_parent_matrix
      let s1 := bSetLocal s node IDENTITY_MATRIX
      let s2 := bSetOPM s1 node baked_matrix
      (.ok s2, [.xformSetLocalMatrix node IDENTITY_MATRIX,
        .setAttrOffsetParentMatrix node baked_matrix])

end matrix_helper

/-! ## Statement helpers and concrete example scenes -/

/-- The per-attribute effect of the user-defined-attribute loop of
`reset_default_values` as the code implements it: skip `message` and `string`
types, and set the queried default only when it is truthy (nonzero). -/
def userReset (ad : AttrData) : AttrData :=
  if ad.attrType != "message" && ad.attrType != "string" && ad.defaultValue != 0
  then { ad with value := ad.defaultValue } else ad

/-- A plain double attribute with default host flags. -/
def mkAttr (n : String) : AttrData :=
  { name := n, value := 0, locked := false, keyable := true, channelBox := false,
    attrType := "double", defaultValue := 0, settable := true, userDefined := false }

/-- Example scene: a node with one attribute, a source node and a destination
node with an ordinary destination plug and a read-only destination plug. -/
def exScene : AttrScene :=
  { nodes :=
      [{ name := "ctrl", attrs := [mkAttr "foo"] },
       { name := "srcN", attrs := [mkAttr "outV"] },
       { name := "dstN", attrs := [mkAttr "inV", mkAttr "roV"] }],
    connections :=
      [(⟨"srcN", "outV"⟩, ⟨"dstN", "inV"⟩), (⟨"srcN", "outV"⟩, ⟨"dstN", "roV"⟩)],
    readOnlyPlugs := [⟨"dstN", "roV"⟩] }

/-- Example scene for the connect family: two bare nodes without transform
channel attributes. -/
def cxScene : AttrScene :=
  { nodes := [{ name := "a", attrs := [] }, { name := "b", attrs := [] }],
    connections := [], readOnlyPlugs := [] }

/-- The nine transform channels as non-settable built-in attributes. -/
def lockedChannelAttrs : List AttrData :=
  trsChannels.map (fun ch => { mkAttr ch with settable := false })

/-- Example scene for `reset_default_values`: a node whose transform channels
are not settable and one user-defined settable double attribute `amount` with
current value 5 and queried default value 0. -/
def cx4 : AttrScene :=
  { nodes := [{ name := "ctrl4", attrs := lockedChannelAttrs ++
      [{ name := "amount", value := 5, locked := false, keyable := true,
         channelBox := false, attrType := "double", defaultValue := 0,
         settable := true, userDefined := true }] }],
    connections := [], readOnlyPlugs := [] }

/-- Example scene for the amended `reset_default_values` claim: settable
channels, a nonzero-default user attribute, a zero-default user attribute,
and a string-typed user attribute. -/
def cx4b : AttrScene :=
  { nodes := [{ name := "ctrl4", attrs := trsChannels.map (fun ch => { mkAttr ch with value := 2 }) ++
      [{ name := "amount", value := 5, locked := false, keyable := true,
         channelBox := false, attrType := "double", defaultValue := 3,
         settable := true, userDefined := true },
       { name := "zeroed", value := 7, locked := false, keyable := true,
         channelBox := false, attrType := "double", defaultValue := 0,
         settable := true, userDefined := true },
       { name := "label", value := 0, locked := false, keyable := true,
         channelBox := false, attrType := "string", defaultValue := 4,
         settable := true, userDefined := true }] }],
    connections := [], readOnlyPlugs := [] }

/-- Example curve scene: a nurbs-curve shape, a transform holding it, a mesh
shape under a transform, a shape-less transform, and a locator used as the
query source. -/
def cScene : CurveScene :=
  { nodes :=
      [{ name := "curve1", objType := "transform", shapes := ["curveShape1"],
         cvs := 0, arclenVal := 0, pos := (0, 0, 0), inPos := (0, 0, 0) },
       { name := "curveShape1", objType := "nurbsCurve", shapes := [],
         cvs := 4, arclenVal := 7, pos := (0, 0, 0), inPos := (0, 0, 0) },
       { name := "poly1", objType := "transform", shapes := ["meshShape1"],
         cvs := 0, arclenVal := 0, pos := (0, 0, 0), inPos := (0, 0, 0) },
       { name := "meshShape1", objType := "mesh", shapes := [],
         cvs := 0, arclenVal := 0, pos := (0, 0, 0), inPos := (0, 0, 0) },
       { name := "grp", objType := "transform", shapes := [],
         cvs := 0, arclenVal := 0, pos := (0, 0, 0), inPos := (0, 0, 0) },
       { name := "loc1", objType := "transform", shapes := [],
         cvs := 0, arclenVal := 0, pos := (1, 2, 3), inPos := (0, 0, 0) }],
    connections := [] }

/-- A fixed nearest-point oracle used in witnesses. -/
def exOracle : String → (ℚ × ℚ × ℚ) → curve_helper.NPCResult :=
  fun _ _ => { position := (1, 2, 3), parameter := 5 }

/-- Example transform scene for `put_in_place`. -/
def xScene : XScene :=
  { nodes :=
      [{ name := "srcX", wpos := (1, 2, 3), wrot := (10, 20, 30), wscl := (1, 1, 1) },
       { name := "tgtX", wpos := (0, 0, 0), wrot := (5, 5, 5), wscl := (2, 2, 2) }] }

/-- Example node for the baking helper. -/
def exB : BNode :=
  { name := "loc1", localMatrix := 1, offsetParentMatrix := 1, parentMatrix := 1 }

/-- Example baking scene at host version 2022. -/
def exBScene : BScene := { version := 2022, nodes := [exB] }

/-- Example baking scene at host version 2019 (below the minimum). -/
def exBSceneOld : BScene := { version := 2019, nodes := [exB] }

/-- The scene after a successful `setAttr` value write on `n0.a0`. -/
def setValueScene (s : AttrScene) (n0 a0 : String) (v : ℚ) : AttrScene :=
  { s with nodes := s.nodes.map (fun nd =>
      if nd.name == n0 then
        { nd with attrs := nd.attrs.map (fun ad =>
            if ad.name == a0 then { ad with value := v } else ad) }
      else nd) }

/-! ## Helper lemmas -/

theorem find_map_pres {α : Type} (l : List α) (q : α → Bool) (g : α → α)
    (h : ∀ x, q (g x) = q x) :
    (l.map g).find? q = (l.find? q).map g := by
  rw [List.find?_map]
  have hq : (q ∘ g) = q := funext h
  rw [hq]

theorem filter_map_pres {α : Type} (l : List α) (g : α → α) (p : α → Bool)
    (nm : α → String) (hp : ∀ x, p (g x) = p x) (hn : ∀ x, nm (g x) = nm x) :
    ((l.map g).filter p).map nm = (l.filter p).map nm := by
  induction l with
  | nil => rfl
  | cons x xs ih =>
    simp only [List.map_cons, List.filter_cons, hp]
    by_cases h : p x = true
    · simp only [h, if_true, List.map_cons, hn, ih]
    · simp only [h, if_false, Bool.false_eq_true, ih]

theorem applyCmd_setValue_ok (s : AttrScene) (n0 a0 : String) (v : ℚ)
    (h : objExistsPlug s n0 a0 = true) :
    applyCmd s (.setAttrValue ⟨n0, a0⟩ v) = .ok (setValueScene s n0 a0 v) := by
  simp [applyCmd, AttrScene.updateAttr, h, setValueScene]

theorem findNode_setValue (s : AttrScene) (n0 a0 : String) (v : ℚ) (n : String) :
    (setValueScene s n0 a0 v).findNode n =
      (s.findNode n).map (fun nd =>
        if nd.name == n0 then
          { nd with attrs := nd.attrs.map (fun ad =>
              if ad.name == a0 then { ad with value := v } else ad) }
        else nd) := by
  unfold setValueScene AttrScene.findNode
  exact find_map_pres _ _ _ (fun nd => by by_cases h : nd.name == n0 <;> simp [h])

theorem findAttr_setValue (s : AttrScene) (n0 a0 : String) (v : ℚ) (n a : String) :
    (setValueScene s n0 a0 v).findAttr n a =
      (s.findAttr n a).map (fun ad =>
        if n == n0 && ad.name == a0 then { ad with value := v } else ad) := by
  unfold AttrScene.findAttr
  rw [findNode_setValue]
  rcases hfn : s.findNode n with _ | nd
  · rfl
  · have hnn : nd.name = n := by
      have h2 := hfn
      unfold AttrScene.findNode at h2
      have h3 := List.find?_some h2
      simpa using h3
    simp only [Option.map_some', Option.some_bind]
    by_cases h0 : nd.name == n0
    · have : (n == n0) = true := by
        subst hnn; simpa using h0
      simp only [h0, if_true, this, Bool.true_and]
      exact find_map_pres _ _ _
        (fun ad => by by_cases ha : ad.name == a0 <;> simp [ha])
    · have : (n == n0) = false := by
        subst hnn
        simpa using h0
      simp only [h0, this, Bool.false_and, Bool.false_eq_true, if_false]
      cases nd.attrs.find? (fun ad => ad.name == a) <;> simp

theorem objExistsPlug_setValue (s : AttrScene) (n0 a0 : String) (v : ℚ) (n a : String) :
    objExistsPlug (setValueScene s n0 a0 v) n a = objExistsPlug s n a := by
  unfold objExistsPlug
  rw [findAttr_setValue]
  cases s.findAttr n a <;> simp

theorem objExistsNode_setValue (s : AttrScene) (n0 a0 : String) (v : ℚ) (n : String) :
    objExistsNode (setValueScene s n0 a0 v) n = objExistsNode s n := by
  unfold objExistsNode
  rw [findNode_setValue]
  cases s.findNode n <;> simp

theorem getAttrSettable_setValue (s : AttrScene) (n0 a0 : String) (v : ℚ) (n a : String) :
    getAttrSettable (setValueScene s n0 a0 v) n a = getAttrSettable s n a := by
  unfold getAttrSettable
  rw [findAttr_setValue]
  cases s.findAttr n a with
  | none => rfl
  | some ad =>
    simp only [Option.map_some']
    split <;> rfl

theorem getAttrType_setValue (s : AttrScene) (n0 a0 : String) (v : ℚ) (n a : String) :
    getAttrType (setValueScene s n0 a0 v) n a = getAttrType s n a := by
  unfold getAttrType
  rw [findAttr_setValue]
  cases s.findAttr n a with
  | none => rfl
  | some ad =>
    simp only [Option.map_some']
    split <;> rfl

theorem addAttrQueryDefault_setValue (s : AttrScene) (n0 a0 : String) (v : ℚ) (n a : String) :
    addAttrQueryDefault (setValueScene s n0 a0 v) n a = addAttrQueryDefault s n a := by
  unfold addAttrQueryDefault
  rw [findAttr_setValue]
  cases s.findAttr n a with
  | none => rfl
  | some ad =>
    simp only [Option.map_some']
    split <;> rfl

theorem listAttr_setValue (s : AttrScene) (n0 a0 : String) (v : ℚ) (n : String) :
    listAttrUserDefinedSettable (setValueScene s n0 a0 v) n =
      listAttrUserDefinedSettable s n := by
  unfold listAttrUserDefinedSettable
  rw [findNode_setValue]
  cases s.findNode n with
  | none => rfl
  | some nd =>
    by_cases h : (nd.name == n0) = true
    · simp only [h, if_true, Option.map_some']
      rw [filter_map_pres _ _ _ _
        (fun ad => by by_cases ha : (ad.name == a0) = true <;> simp [ha])
        (fun ad => by by_cases ha : (ad.name == a0) = true <;> simp [ha])]
    · have h2 : ¬(nd.name = n0) := by simpa using h
      simp [h2]

theorem findAttr_name (s : AttrScene) (n a : String) (ad : AttrData)
    (h : s.findAttr n a = some ad) : ad.name = a := by
  unfold AttrScene.findAttr at h
  rcases hfn : s.findNode n with _ | nd
  · rw [hfn] at h; cases h
  · rw [hfn] at h
    simp only [Option.some_bind] at h
    have h2 := List.find?_some h
    simpa using h2

theorem findAttr_setValue_other (s : AttrScene) (n0 a0 : String) (v : ℚ)
    (n a : String) (h : n ≠ n0 ∨ a ≠ a0) :
    (setValueScene s n0 a0 v).findAttr n a = s.findAttr n a := by
  rw [findAttr_setValue]
  rcases hf : s.findAttr n a with _ | ad
  · rfl
  · have hn := findAttr_name s n a ad hf
    rcases h with h | h
    · have : (n == n0) = false := by simpa using h
      simp [this]
    · have hb : (ad.name == a0) = false := by
        rw [hn]; simpa using h
      have hc : ¬((n == n0 && (ad.name == a0)) = true) := by simp [hb]
      rw [Option.map_some', if_neg hc]

/-- `cmds.addAttr` success: the attribute exists afterwards. -/
theorem applyCmd_addAttr_ok (s : AttrScene) (n a : String)
    (hn : objExistsNode s n = true) (ha : objExistsPlug s n a = false) :
    ∃ s2, applyCmd s (.addAttrCmd n a) = .ok s2 ∧
      objExistsPlug s2 n a = true := by
  refine ⟨{ s with nodes := s.nodes.map (fun nd =>
      if nd.name == n then
        { nd with attrs := nd.attrs ++
          [{ name := a, value := 0, locked := false, keyable := false,
             channelBox := false, attrType := "double", defaultValue := 0,
             settable := true, userDefined := true }] }
      else nd) }, by simp [applyCmd, hn, ha], ?_⟩
  unfold objExistsPlug AttrScene.findAttr AttrScene.findNode
  simp only
  rw [find_map_pres _ _ _
    (fun nd => by by_cases h : (nd.name == n) = true <;> simp [h])]
  unfold objExistsNode at hn
  rcases hfn : s.findNode n with _ | nd
  · rw [hfn] at hn; cases hn
  · have h2 := hfn
    unfold AttrScene.findNode at h2
    rw [h2]
    have hname : nd.name = n := by
      have h3 := List.find?_some h2
      simpa using h3
    have hcond : (nd.name == n) = true := by simpa using hname
    simp only [Option.map_some', hcond, if_true, Option.some_bind]
    have hattrs : nd.attrs.find? (fun ad => ad.name == a) = none := by
      unfold objExistsPlug AttrScene.findAttr at ha
      rw [hfn] at ha
      simp only [Option.some_bind] at ha
      rcases hfa : nd.attrs.find? (fun ad => ad.name == a) with _ | ad
      · exact hfa
      · simp [hfa] at ha
    rw [List.find?_append, hattrs]
    simp

/-! ## Claim theorems -/

/-- Claim C9 (confirmed): `AttributeHelper.set_attribute_keyable` issues a
host mutation only when the named attribute does NOT exist on the object;
when it exists, it returns `False` without issuing any host command and the
scene is unchanged — the inverse of the guard used by every other mutator of
the class. -/
theorem set_attribute_keyable_inverted_guard (s : AttrScene) (obj attr : String)
    (k : Bool) :
    (objExistsPlug s obj attr = true →
      attributes_lib.AttributeHelper.set_attribute_keyable s obj attr k =
        (.ok (some false, s), [])) ∧
    (objExistsPlug s obj attr = false →
      attributes_lib.AttributeHelper.set_attribute_keyable s obj attr k =
        (.error (.hostError "setAttr: attribute not found"),
         [.setAttrKeyableChannelBox ⟨obj, attr⟩ k (!k)])) := by
  constructor
  · intro h
    simp [attributes_lib.AttributeHelper.set_attribute_keyable,
      attributes_lib.AttributeHelper.attribute_exists, h]
  · intro h
    simp [attributes_lib.AttributeHelper.set_attribute_keyable,
      attributes_lib.AttributeHelper.attribute_exists, h, attributes_lib.issueL,
      applyCmd, AttrScene.updateAttr]

/-- Witness for C9 at a concrete scene: `ctrl.foo` exists (early `False`
return, no command), `ctrl.bar` does not (a `setAttr` command is issued). -/
theorem set_attribute_keyable_inverted_guard_witness :
    (objExistsPlug exScene "ctrl" "foo" = true ∧
      attributes_lib.AttributeHelper.set_attribute_keyable exScene "ctrl" "foo" true =
        (.ok (some false, exScene), [])) ∧
    (objExistsPlug exScene "ctrl" "bar" = false ∧
      attributes_lib.AttributeHelper.set_attribute_keyable exScene "ctrl" "bar" true =
        (.error (.hostError "setAttr: attribute not found"),
         [.setAttrKeyableChannelBox ⟨"ctrl", "bar"⟩ true (!true)])) :=
  ⟨⟨by decide,
    (set_attribute_keyable_inverted_guard exScene "ctrl" "foo" true).1 (by decide)⟩,
   ⟨by decide,
    (set_attribute_keyable_inverted_guard exScene "ctrl" "bar" true).2 (by decide)⟩⟩

/-- Claim C10 (confirmed): on an existing attribute that is not the
destination of any connection, both `delete_connection` versions return
normally, issue no host mutation command, and leave the scene unchanged. -/
theorem delete_connection_no_destination (s : AttrScene) (node attr : String)
    (hex : objExistsPlug s node attr = true)
    (hnd : connectionInfo_isDestination s ⟨node, attr⟩ = false) :
    attribute_helper.delete_connection s node attr = (.ok s, []) ∧
    attributes_lib.delete_connection s node attr = (.ok s, []) := by
  constructor
  · simp [attribute_helper.delete_connection, attribute_helper.is_attr, hex, hnd]
  · simp [attributes_lib.delete_connection,
      attributes_lib.AttributeHelper.attribute_exists, hex, hnd]

/-- Witness for C10: `srcN.outV` exists and is not a destination. -/
theorem delete_connection_no_destination_witness :
    objExistsPlug exScene "srcN" "outV" = true ∧
    connectionInfo_isDestination exScene ⟨"srcN", "outV"⟩ = false ∧
    attribute_helper.delete_connection exScene "srcN" "outV" = (.ok exScene, []) ∧
    attributes_lib.delete_connection exScene "srcN" "outV" = (.ok exScene, []) :=
  ⟨by decide, by decide,
   (delete_connection_no_destination exScene "srcN" "outV" (by decide) (by decide)).1,
   (delete_connection_no_destination exScene "srcN" "outV" (by decide) (by decide)).2⟩

/-- Claim C5 (confirmed): on an existing node, adding an attribute that
already exists raises (ValueError in `add_attr`, RuntimeError in
`AttributeHelper.add_attribute`) and issues no host command; adding a missing
attribute creates it. -/
theorem add_attribute_exists_guard (s : AttrScene) (node attr : String) (cb : Bool)
    (hn : objExistsNode s node = true) :
    (objExistsPlug s node attr = true →
      attribute_helper.add_attr s node attr cb =
        (.error (.valueError "attribute already exists in node"), []) ∧
      attributes_lib.AttributeHelper.add_attribute s node attr =
        (.error (.runtimeError "Attribute already exists in object"), [])) ∧
    (objExistsPlug s node attr = false →
      (∃ s2, (attribute_helper.add_attr s node attr cb).1 = .ok s2 ∧
        objExistsPlug s2 node attr = true) ∧
      (∃ s3, (attributes_lib.AttributeHelper.add_attribute s node attr).1 =
        .ok (none, s3) ∧ objExistsPlug s3 node attr = true)) := by
  constructor
  · intro h
    constructor
    · simp [attribute_helper.add_attr, h]
    · simp [attributes_lib.AttributeHelper.add_attribute,
        attributes_lib.AttributeHelper.attribute_exists, h]
  · intro h
    obtain ⟨s2, happly, hex2⟩ := applyCmd_addAttr_ok s node attr hn h
    constructor
    · cases cb with
      | false =>
        refine ⟨s2, ?_, hex2⟩
        simp [attribute_helper.add_attr, h, runCmds, happly]
      | true =>
        have hupd : ∃ s3, applyCmd s2 (.setAttrChannelBox ⟨node, attr⟩ true) = .ok s3 ∧
            objExistsPlug s3 node attr = true := by
          unfold applyCmd AttrScene.updateAttr
          simp only [hex2, if_true]
          refine ⟨_, rfl, ?_⟩
          unfold objExistsPlug AttrScene.findAttr AttrScene.findNode
          simp only
          rw [find_map_pres _ _ _
            (fun nd => by by_cases hq : (nd.name == node) = true <;> simp [hq])]
          unfold objExistsPlug at hex2
          rcases hf2 : s2.findAttr node attr with _ | ad
          · rw [hf2] at hex2; cases hex2
          · have hfa := hf2
            unfold AttrScene.findAttr at hfa
            rcases hfn2 : s2.findNode node with _ | nd
            · rw [hfn2] at hfa; cases hfa
            · have hfn2' := hfn2
              unfold AttrScene.findNode at hfn2'
              rw [hfn2'] 
              rw [hfn2] at hfa
              simp only [Option.some_bind] at hfa
              have hname : nd.name = node := by
                have h3 := List.find?_some hfn2'
                simpa using h3
              have hcond : (nd.name == node) = true := by simpa using hname
              simp only [Option.map_some', hcond, if_true, Option.some_bind]
              rw [find_map_pres _ _ _
                (fun x => by by_cases hq : (x.name == attr) = true <;> simp [hq])]
              rw [hfa]
              simp
        obtain ⟨s3, happly3, hex3⟩ := hupd
        refine ⟨s3, ?_, hex3⟩
        simp [attribute_helper.add_attr, h, runCmds, happly, happly3]
    · refine ⟨s2, ?_, hex2⟩
      simp [attributes_lib.AttributeHelper.add_attribute,
        attributes_lib.AttributeHelper.attribute_exists, h,
        attributes_lib.issueL, happly]

/-- Witness for C5: `ctrl.foo` exists (both adders raise, no commands);
`ctrl.bar` does not exist (both adders create it). -/
theorem add_attribute_exists_guard_witness :
    objExistsNode exScene "ctrl" = true ∧
    (objExistsPlug exScene "ctrl" "foo" = true →
      attribute_helper.add_attr exScene "ctrl" "foo" false =
        (.error (.valueError "attribute already exists in node"), []) ∧
      attributes_lib.AttributeHelper.add_attribute exScene "ctrl" "foo" =
        (.error (.runtimeError "Attribute already exists in object"), [])) ∧
    (objExistsPlug exScene "ctrl" "bar" = false →
      (∃ s2, (attribute_helper.add_attr exScene "ctrl" "bar" false).1 = .ok s2 ∧
        objExistsPlug s2 "ctrl" "bar" = true) ∧
      (∃ s3, (attributes_lib.AttributeHelper.add_attribute exScene "ctrl" "bar").1 =
        .ok (none, s3) ∧ objExistsPlug s3 "ctrl" "bar" = true)) :=
  ⟨by decide,
   (add_attribute_exists_guard exScene "ctrl" "foo" false (by decide)).1,
   (add_attribute_exists_guard exScene "ctrl" "bar" false (by decide)).2⟩

theorem XScene.findNode_name_eq (s : XScene) (n : String) (x : XNode)
    (h : s.findNode n = some x) : x.name = n := by
  unfold XScene.findNode at h
  have h2 := List.find?_some h
  simpa using h2

/-- Claim C8 (confirmed): `put_in_place` with only position enabled sets the
target's world position to the source's world position and leaves the
target's world rotation and scale (and every other node) unchanged. -/
theorem put_in_place_pos_only (s : XScene) (source target : String)
    (xs xt : XNode) (hs : s.findNode source = some xs)
    (ht : s.findNode target = some xt) :
    ∃ s2, matrix_helper.put_in_place s source target true false false = .ok s2 ∧
      s2.findNode target = some { xt with wpos := xs.wpos } ∧
      (∀ n, n ≠ target → s2.findNode n = s.findNode n) := by
  have hse : (s.findNode source).isSome = true := by rw [hs]; rfl
  have hte : (s.findNode target).isSome = true := by rw [ht]; rfl
  have hget : matrix_helper.get_position s source = .ok xs.wpos := by
    simp [matrix_helper.get_position, matrix_helper.check_node_exists, hse, hs]
  refine ⟨{ s with nodes := s.nodes.map (fun nd =>
      if nd.name == target then { nd with wpos := xs.wpos } else nd) }, ?_, ?_, ?_⟩
  · simp [matrix_helper.put_in_place, matrix_helper.check_node_exists, hse, hte,
      hget, matrix_helper.set_position]
  · show ({ nodes := s.nodes.map (fun nd =>
        if nd.name == target then { nd with wpos := xs.wpos } else nd) } : XScene).findNode target = _
    unfold XScene.findNode
    rw [find_map_pres _ _ _
      (fun x => by by_cases hq : (x.name == target) = true <;> simp [hq])]
    have ht2 := ht
    unfold XScene.findNode at ht2
    rw [ht2]
    have hname : xt.name = target := XScene.findNode_name_eq s target xt ht
    have hcond : (xt.name == target) = true := by simpa using hname
    simp only [Option.map_some', hcond, if_true]
  · intro n hne
    show ({ nodes := s.nodes.map (fun nd =>
        if nd.name == target then { nd with wpos := xs.wpos } else nd) } : XScene).findNode n = _
    unfold XScene.findNode
    rw [find_map_pres _ _ _
      (fun x => by by_cases hq : (x.name == target) = true <;> simp [hq])]
    rcases hfn : s.findNode n with _ | x
    · have hfn2 := hfn
      unfold XScene.findNode at hfn2
      rw [hfn2]
      rfl
    · have hfn2 := hfn
      unfold XScene.findNode at hfn2
      rw [hfn2]
      have hname : x.name = n := XScene.findNode_name_eq s n x hfn
      have hcond : (x.name == target) = false := by
        rw [hname]; simpa using hne
      simp only [Option.map_some', hcond, Bool.false_eq_true, if_false]

/-- Witness for C8: copying only position from `srcX` to `tgtX`. -/
theorem put_in_place_pos_only_witness :
    xScene.findNode "srcX" = some ⟨"srcX", (1, 2, 3), (10, 20, 30), (1, 1, 1)⟩ ∧
    xScene.findNode "tgtX" = some ⟨"tgtX", (0, 0, 0), (5, 5, 5), (2, 2, 2)⟩ ∧
    (∃ s2, matrix_helper.put_in_place xScene "srcX" "tgtX" true false false = .ok s2 ∧
      s2.findNode "tgtX" = some ⟨"tgtX", (1, 2, 3), (5, 5, 5), (2, 2, 2)⟩ ∧
      (∀ n, n ≠ "tgtX" → s2.findNode n = xScene.findNode n)) :=
  ⟨by decide, by decide,
   put_in_place_pos_only xScene "srcX" "tgtX"
     ⟨"srcX", (1, 2, 3), (10, 20, 30), (1, 1, 1)⟩
     ⟨"tgtX", (0, 0, 0), (5, 5, 5), (2, 2, 2)⟩ (by decide) (by decide)⟩

theorem BScene.findNode_name_b (s : BScene) (n : String) (b : BNode)
    (h : s.findNode n = some b) : b.name = n := by
  unfold BScene.findNode at h
  have h2 := List.find?_some h
  simpa using h2

/-- Claim C3 (confirmed): at host version 2020 or above,
`bake_transform_to_offset_parent_matrix` writes the identity into the node's
local matrix and the product `local * offsetParent` into the offset-parent
slot, and the resultant world transform (identity composed with the new
offset-parent matrix and the parent transform) equals the world transform
before the call; below version 2020 it raises and issues no command. -/
theorem bake_transform_preserves_world (s : BScene) (node : String) :
    (2020 ≤ s.version →
      ∀ b, s.findNode node = some b →
        ∃ s2, matrix_helper.bake_transform_to_offset_parent_matrix s node =
          (.ok s2, [.xformSetLocalMatrix node IDENTITY_MATRIX,
            .setAttrOffsetParentMatrix node (b.localMatrix * b.offsetParentMatrix)]) ∧
          s2.findNode node = some { b with localMatrix := IDENTITY_MATRIX, offsetParentMatrix := b.localMatrix * b.offsetParentMatrix } ∧
          worldMatrix { b with localMatrix := IDENTITY_MATRIX, offsetParentMatrix := b.localMatrix * b.offsetParentMatrix } = worldMatrix b) ∧
    (s.version < 2020 →
      matrix_helper.bake_transform_to_offset_parent_matrix s node =
        (.error (.exception "You need a version of maya 2020 or higher"), [])) := by
  constructor
  · intro hv b hb
    have hname : b.name = node := BScene.findNode_name_b s node b hb
    have hcond : (b.name == node) = true := by simpa using hname
    have hv2 : (!(decide (2020 ≤ s.version))) = false := by simp [hv]
    refine ⟨bSetOPM (bSetLocal s node IDENTITY_MATRIX) node
      (b.localMatrix * b.offsetParentMatrix), ?_, ?_, ?_⟩
    · unfold matrix_helper.bake_transform_to_offset_parent_matrix
      rw [hv2, hb]
      simp
    · unfold bSetOPM bSetLocal BScene.findNode
      simp only
      rw [find_map_pres _ _ _
        (fun x => by by_cases hq : (x.name == node) = true <;> simp [hq])]
      rw [find_map_pres _ _ _
        (fun x => by by_cases hq : (x.name == node) = true <;> simp [hq])]
      have hb2 := hb
      unfold BScene.findNode at hb2
      rw [hb2]
      simp only [Option.map_some', hcond, if_true]
    · unfold worldMatrix IDENTITY_MATRIX
      simp only
      rw [Matrix.one_mul]
  · intro hv
    have hv2 : (!(decide (2020 ≤ s.version))) = true := by
      simp only [Bool.not_eq_true', decide_eq_false_iff_not]
      omega
    unfold matrix_helper.bake_transform_to_offset_parent_matrix
    rw [hv2]
    simp

/-- Witness for C3 at version 2022 (success case) and version 2019 (the
raising case). -/
theorem bake_transform_preserves_world_witness :
    (2020 ≤ exBScene.version ∧ exBScene.findNode "loc1" = some exB ∧
      (∃ s2, matrix_helper.bake_transform_to_offset_parent_matrix exBScene "loc1" =
        (.ok s2, [.xformSetLocalMatrix "loc1" IDENTITY_MATRIX,
          .setAttrOffsetParentMatrix "loc1" (exB.localMatrix * exB.offsetParentMatrix)]) ∧
        s2.findNode "loc1" = some { exB with localMatrix := IDENTITY_MATRIX, offsetParentMatrix := exB.localMatrix * exB.offsetParentMatrix } ∧
        worldMatrix { exB with localMatrix := IDENTITY_MATRIX, offsetParentMatrix := exB.localMatrix * exB.offsetParentMatrix } = worldMatrix exB)) ∧
    (exBSceneOld.version < 2020 ∧
      matrix_helper.bake_transform_to_offset_parent_matrix exBSceneOld "loc1" =
        (.error (.exception "You need a version of maya 2020 or higher"), [])) :=
  ⟨⟨by norm_num [exBScene], rfl,
    (bake_transform_preserves_world exBScene "loc1").1 (by norm_num [exBScene]) exB rfl⟩,
   ⟨by norm_num [exBSceneOld],
    (bake_transform_preserves_world exBSceneOld "loc1").2 (by norm_num [exBSceneOld])⟩⟩

/-- Shared lemma: a completed `get_nearest_point_on_curve` call returns the
oracle result on the resolved curve and restores the scene exactly. -/
theorem get_nearest_point_ok_aux (s : CurveScene) (node source temp crv : String)
    (oracle : String → (ℚ × ℚ × ℚ) → curve_helper.NPCResult) (srcd : CNode)
    (hn : curveObjExists s node = true)
    (hres : curve_helper.resolveCurve s node = .ok crv)
    (hsrc : s.findNode source = some srcd)
    (hfresh : curveObjExists s temp = false)
    (hwf : ∀ e ∈ s.connections, e.1.node ≠ temp ∧ e.2.node ≠ temp) :
    curve_helper.get_nearest_point_on_curve s node source temp oracle =
      .ok (oracle crv srcd.pos, s) := by
  have hnodes : ∀ x ∈ s.nodes, (x.name == temp) = false := by
    intro x hx
    unfold curveObjExists CurveScene.findNode at hfresh
    rcases hfind : List.find? (fun nd => nd.name == temp) s.nodes with _ | y
    · have hall := List.find?_eq_none.mp hfind
      have h3 := hall x hx
      simpa using h3
    · rw [hfind] at hfresh; cases hfresh
  have h1 : curve_helper.node_exists s node = .ok () := by
    unfold curve_helper.node_exists
    simp [hn]
  have h2 : curve_helper.node_exists s source = .ok () := by
    unfold curve_helper.node_exists curveObjExists
    rw [hsrc]
    simp
  have h3 : curve_helper.xformQueryTranslation s source = .ok srcd.pos := by
    unfold curve_helper.xformQueryTranslation
    rw [hsrc]
  unfold curve_helper.get_nearest_point_on_curve
  rw [h1, h2, hres, h3]
  simp only
  have hfix : curve_helper.curveDeleteNode
      (curve_helper.curveSetInPosition
        (curve_helper.curveConnectAttr (curve_helper.createNodeNPC s temp)
          ⟨crv, "worldSpace"⟩ ⟨temp, "inputCurve"⟩) temp srcd.pos) temp = s := by
    unfold curve_helper.curveDeleteNode curve_helper.curveSetInPosition
      curve_helper.curveConnectAttr curve_helper.createNodeNPC
    simp only
    have hX : ((s.nodes ++
        ([⟨temp, "nearestPointOnCurve", [], 0, 0, (0, 0, 0), (0, 0, 0)⟩] : List CNode)).map
          (fun nd => if nd.name == temp then { nd with inPos := srcd.pos } else nd)).filter
          (fun nd => !(nd.name == temp)) = s.nodes := by
      rw [List.map_append, List.filter_append]
      have e1 : s.nodes.map
          (fun nd => if nd.name == temp then { nd with inPos := srcd.pos } else nd) =
          s.nodes := by
        have h4 : ∀ x ∈ s.nodes,
            (if x.name == temp then { x with inPos := srcd.pos } else x) = id x := by
          intro x hx
          simp [hnodes x hx]
        rw [List.map_congr_left h4, List.map_id]
      have e2 : (s.nodes.filter (fun nd => !(nd.name == temp))) = s.nodes := by
        rw [List.filter_eq_self]
        intro x hx
        simp [hnodes x hx]
      rw [e1, e2]
      simp
    have hY : ((s.connections ++
        [((⟨crv, "worldSpace"⟩ : Plug), (⟨temp, "inputCurve"⟩ : Plug))]).filter
          (fun e => !(e.1.node == temp) && !(e.2.node == temp))) = s.connections := by
      rw [List.filter_append]
      have e2 : (s.connections.filter
          (fun e => !(e.1.node == temp) && !(e.2.node == temp))) = s.connections := by
        rw [List.filter_eq_self]
        intro e he
        have hw := hwf e he
        simp [hw.1, hw.2]
      rw [e2]
      simp
    rw [hX, hY]
  rw [hfix]

/-- Claim C7 (confirmed): on a completed call, `get_nearest_point_on_curve`
returns only the position/parameter result and restores the scene exactly —
the temporary `nearestPointOnCurve` node (and the wiring attached to it
during the call) is deleted before the call returns. -/
theorem get_nearest_point_scoped (s : CurveScene) (node source temp crv : String)
    (oracle : String → (ℚ × ℚ × ℚ) → curve_helper.NPCResult) (srcd : CNode)
    (hn : curveObjExists s node = true)
    (hres : curve_helper.resolveCurve s node = .ok crv)
    (hsrc : s.findNode source = some srcd)
    (hfresh : curveObjExists s temp = false)
    (hwf : ∀ e ∈ s.connections, e.1.node ≠ temp ∧ e.2.node ≠ temp) :
    curve_helper.get_nearest_point_on_curve s node source temp oracle =
      .ok (oracle crv srcd.pos, s) :=
  get_nearest_point_ok_aux s node source temp crv oracle srcd hn hres hsrc hfresh hwf

/-- Witness for C7: querying the nearest point on `curve1` (resolved to
`curveShape1`) from `loc1`, with temp node name `tmpNPC1`. -/
theorem get_nearest_point_scoped_witness :
    curveObjExists cScene "curve1" = true ∧
    curve_helper.resolveCurve cScene "curve1" = .ok "curveShape1" ∧
    cScene.findNode "loc1" =
      some ⟨"loc1", "transform", [], 0, 0, (1, 2, 3), (0, 0, 0)⟩ ∧
    curveObjExists cScene "tmpNPC1" = false ∧
    curve_helper.get_nearest_point_on_curve cScene "curve1" "loc1" "tmpNPC1" exOracle =
      .ok (exOracle "curveShape1" (1, 2, 3), cScene) :=
  ⟨by decide, by rfl, by decide, by decide,
   get_nearest_point_scoped cScene "curve1" "loc1" "tmpNPC1" "curveShape1" exOracle
     ⟨"loc1", "transform", [], 0, 0, (1, 2, 3), (0, 0, 0)⟩
     (by decide) (by rfl) (by decide) (by decide)
     (by simp [cScene])⟩

/-- Claim C2 (confirmed): on an existing attribute that is a connection
destination, `delete_connection` (both versions, which agree) follows the
two-case policy: a read-only destination loses exactly its single incoming
edge via `disconnectAttr` — no node is deleted — while any other destination
has its full upstream subgraph of input connections and nodes deleted. -/
theorem delete_connection_two_case (s : AttrScene) (node attr : String)
    (hex : objExistsPlug s node attr = true)
    (hdst : connectionInfo_isDestination s ⟨node, attr⟩ = true) :
    (∀ src, (⟨node, attr⟩ : Plug) ∈ s.readOnlyPlugs →
      connectionInfo_sourceFromDestination s ⟨node, attr⟩ = some src →
      (∀ e ∈ s.connections, e.2 = ⟨node, attr⟩ → e = (src, ⟨node, attr⟩)) →
      attribute_helper.delete_connection s node attr =
        (.ok { s with connections := s.connections.filter (fun e => !(e == (src, ⟨node, attr⟩))) }, [.disconnectAttrCmd src ⟨node, attr⟩]) ∧
      ({ s with connections := s.connections.filter (fun e => !(e == (src, ⟨node, attr⟩))) } : AttrScene).nodes = s.nodes ∧
      (∀ e ∈ s.connections.filter (fun e => !(e == (src, ⟨node, attr⟩))), e.2 ≠ ⟨node, attr⟩) ∧
      attributes_lib.delete_connection s node attr = attribute_helper.delete_connection s node attr) ∧
    ((⟨node, attr⟩ : Plug) ∉ s.readOnlyPlugs →
      attribute_helper.delete_connection s node attr =
        (.ok { s with
          nodes := s.nodes.filter (fun nd => !(decide (nd.name ∈ upstreamNodes s ⟨node, attr⟩))),
          connections := s.connections.filter (fun e =>
            !(decide (e.1.node ∈ upstreamNodes s ⟨node, attr⟩)) &&
            !(decide (e.2.node ∈ upstreamNodes s ⟨node, attr⟩)) &&
            !(e.2 == (⟨node, attr⟩ : Plug))) },
         [.deleteInputConnectionsAndNodes ⟨node, attr⟩]) ∧
      attributes_lib.delete_connection s node attr = attribute_helper.delete_connection s node attr) := by
  have hsame : attributes_lib.delete_connection s node attr =
      attribute_helper.delete_connection s node attr := by
    unfold attributes_lib.delete_connection attribute_helper.delete_connection
      attributes_lib.AttributeHelper.attribute_exists attribute_helper.is_attr
    rw [hex]
    simp
  constructor
  · intro src hro hsrc huniq
    have hmem : (src, (⟨node, attr⟩ : Plug)) ∈ s.connections := by
      unfold connectionInfo_sourceFromDestination at hsrc
      rcases hfind : s.connections.find? (fun e => e.2 == ⟨node, attr⟩) with _ | e0
      · rw [hfind] at hsrc; cases hsrc
      · rw [hfind] at hsrc
        simp only [Option.map_some'] at hsrc
        have he0 : e0 ∈ s.connections := List.mem_of_find?_eq_some hfind
        have hp := List.find?_some hfind
        have hp2 : e0.2 = ⟨node, attr⟩ := by simpa using hp
        have he : e0 = (src, ⟨node, attr⟩) := by
          rcases e0 with ⟨a, b⟩
          simp only at hsrc hp2
          have ha : a = src := Option.some.inj hsrc
          rw [ha, hp2]
        rw [← he]
        exact he0
    have hro2 : ls_readOnly s ⟨node, attr⟩ = [⟨node, attr⟩] := by
      unfold ls_readOnly
      rw [if_pos hro]
    refine ⟨?_, rfl, ?_, hsame⟩
    · unfold attribute_helper.delete_connection attribute_helper.is_attr
      rw [hex]
      simp only [Bool.not_true, Bool.false_eq_true, if_false, hdst, if_true]
      unfold connectionInfo_getExactDestination
      rw [hro2, hsrc]
      simp only [List.isEmpty_cons, Bool.not_false, if_true]
      simp [issue1, applyCmd, hmem]
    · intro e he
      have hf := List.of_mem_filter he
      have hm := List.mem_of_mem_filter he
      intro hcontra
      have := huniq e hm hcontra
      rw [this] at hf
      simp at hf
  · intro hro
    have hro2 : ls_readOnly s ⟨node, attr⟩ = [] := by
      unfold ls_readOnly
      rw [if_neg hro]
    refine ⟨?_, hsame⟩
    unfold attribute_helper.delete_connection attribute_helper.is_attr
    rw [hex]
    simp only [Bool.not_true, Bool.false_eq_true, if_false, hdst, if_true]
    unfold connectionInfo_getExactDestination
    rw [hro2]
    simp only [List.isEmpty_nil, Bool.not_true, Bool.false_eq_true, if_false]
    simp [issue1, applyCmd, hex]

/-- Witness for C2: `dstN.roV` is a read-only destination (single edge
disconnected, nodes kept); `dstN.inV` is an ordinary destination (upstream
deletion command). -/
theorem delete_connection_two_case_witness :
    objExistsPlug exScene "dstN" "roV" = true ∧
    connectionInfo_isDestination exScene ⟨"dstN", "roV"⟩ = true ∧
    (⟨"dstN", "roV"⟩ : Plug) ∈ exScene.readOnlyPlugs ∧
    (attribute_helper.delete_connection exScene "dstN" "roV" =
        (.ok { exScene with connections := exScene.connections.filter (fun e => !(e == ((⟨"srcN", "outV"⟩ : Plug), (⟨"dstN", "roV"⟩ : Plug)))) }, [.disconnectAttrCmd ⟨"srcN", "outV"⟩ ⟨"dstN", "roV"⟩]) ∧
      ({ exScene with connections := exScene.connections.filter (fun e => !(e == ((⟨"srcN", "outV"⟩ : Plug), (⟨"dstN", "roV"⟩ : Plug)))) } : AttrScene).nodes = exScene.nodes ∧
      (∀ e ∈ exScene.connections.filter (fun e => !(e == ((⟨"srcN", "outV"⟩ : Plug), (⟨"dstN", "roV"⟩ : Plug)))), e.2 ≠ ⟨"dstN", "roV"⟩) ∧
      attributes_lib.delete_connection exScene "dstN" "roV" = attribute_helper.delete_connection exScene "dstN" "roV") ∧
    (⟨"dstN", "inV"⟩ : Plug) ∉ exScene.readOnlyPlugs ∧
    (attribute_helper.delete_connection exScene "dstN" "inV" =
        (.ok { exScene with
          nodes := exScene.nodes.filter (fun nd => !(decide (nd.name ∈ upstreamNodes exScene ⟨"dstN", "inV"⟩))),
          connections := exScene.connections.filter (fun e =>
            !(decide (e.1.node ∈ upstreamNodes exScene ⟨"dstN", "inV"⟩)) &&
            !(decide (e.2.node ∈ upstreamNodes exScene ⟨"dstN", "inV"⟩)) &&
            !(e.2 == (⟨"dstN", "inV"⟩ : Plug))) },
         [.deleteInputConnectionsAndNodes ⟨"dstN", "inV"⟩]) ∧
      attributes_lib.delete_connection exScene "dstN" "inV" = attribute_helper.delete_connection exScene "dstN" "inV") :=
  ⟨by decide, by decide, by decide,
   (delete_connection_two_case exScene "dstN" "roV" (by decide) (by decide)).1
     ⟨"srcN", "outV"⟩ (by decide) (by decide) (by decide),
   by decide,
   (delete_connection_two_case exScene "dstN" "inV" (by decide) (by decide)).2 (by decide)⟩

/-- Counterexample to C6 as stated: `grp` is an existing node that is neither
a nurbs curve nor a transform whose resolved shape is a nurbs curve (it has
no shape relatives at all), yet the curve queries do not raise the wrong-type
`ValueError` — they crash with a Python `TypeError` from subscripting the
`None` returned by `listRelatives`. -/
theorem curve_resolve_validate_counterexample :
    curveObjExists cScene "grp" = true ∧
    cScene.findNode "grp" = some ⟨"grp", "transform", [], 0, 0, (0, 0, 0), (0, 0, 0)⟩ ∧
    curve_helper.get_cvs_number cScene "grp" =
      .error (.typeError "NoneType object is not subscriptable") ∧
    curve_helper.get_curve_length cScene "grp" =
      .error (.typeError "NoneType object is not subscriptable") :=
  ⟨by decide, by decide, by rfl, by rfl⟩

/-- Claim C6 (amended): each curve query accepts a nurbs-curve shape directly
or resolves a node's first shape relative and validates it, operating on the
resolved shape; a resolved shape that exists but is not a nurbs curve raises
the wrong-type ValueError; a non-curve node with no shape relatives instead
fails with a TypeError from subscripting the empty (`None`) result of
`listRelatives`. -/
theorem curve_resolve_validate (s : CurveScene) (node : String) (nd : CNode)
    (h : s.findNode node = some nd) :
    (nd.objType = "nurbsCurve" →
      curve_helper.get_cvs_number s node = .ok nd.cvs ∧
      curve_helper.get_curve_length s node = .ok nd.arclenVal ∧
      curve_helper.resolveCurve s node = .ok node) ∧
    (∀ sh rest shd, nd.objType ≠ "nurbsCurve" → nd.shapes = sh :: rest →
      s.findNode sh = some shd →
      (shd.objType = "nurbsCurve" →
        curve_helper.get_cvs_number s node = .ok shd.cvs ∧
        curve_helper.get_curve_length s node = .ok shd.arclenVal ∧
        curve_helper.resolveCurve s node = .ok sh ∧
        (∀ source srcd temp oracle, s.findNode source = some srcd →
          curveObjExists s temp = false →
          (∀ e ∈ s.connections, e.1.node ≠ temp ∧ e.2.node ≠ temp) →
          curve_helper.get_nearest_point_on_curve s node source temp oracle =
            .ok (oracle sh srcd.pos, s))) ∧
      (shd.objType ≠ "nurbsCurve" →
        curve_helper.get_cvs_number s node =
          .error (.valueError "node is not a nurbsCurve") ∧
        curve_helper.get_curve_length s node =
          .error (.valueError "node is not a nurbsCurve") ∧
        (∀ source srcd temp oracle, s.findNode source = some srcd →
          curve_helper.get_nearest_point_on_curve s node source temp oracle =
            .error (.valueError "node is not a nurbsCurve")))) ∧
    (nd.objType ≠ "nurbsCurve" → nd.shapes = [] →
      curve_helper.get_cvs_number s node =
        .error (.typeError "NoneType object is not subscriptable") ∧
      curve_helper.get_curve_length s node =
        .error (.typeError "NoneType object is not subscriptable") ∧
      (∀ source srcd temp oracle, s.findNode source = some srcd →
        curve_helper.get_nearest_point_on_curve s node source temp oracle =
          .error (.typeError "NoneType object is not subscriptable"))) := by
  have hnex : curveObjExists s node = true := by
    unfold curveObjExists
    rw [h]
    rfl
  have hne : curve_helper.node_exists s node = .ok () := by
    unfold curve_helper.node_exists
    simp [hnex]
  have hisn : curve_helper.is_nurbs_curve s node = .ok (nd.objType == "nurbsCurve") := by
    unfold curve_helper.is_nurbs_curve
    rw [hne, h]
  refine ⟨?_, ?_, ?_⟩
  · intro ha
    have hres : curve_helper.resolveCurve s node = .ok node := by
      unfold curve_helper.resolveCurve
      rw [hisn]
      have : (nd.objType == "nurbsCurve") = true := by simpa using ha
      rw [this]
    refine ⟨?_, ?_, hres⟩
    · unfold curve_helper.get_cvs_number
      rw [hne, hres]
      simp [h]
    · unfold curve_helper.get_curve_length
      rw [hne, hres]
      simp [h]
  · intro sh rest shd hb hshapes hsh
    have hbb : (nd.objType == "nurbsCurve") = false := by simpa using hb
    have hlist : listRelativesShapes s node = some (sh :: rest) := by
      unfold listRelativesShapes
      rw [h]
      simp [hshapes]
    have hshex : curve_helper.node_exists s sh = .ok () := by
      unfold curve_helper.node_exists curveObjExists
      rw [hsh]
      rfl
    have hisn2 : curve_helper.is_nurbs_curve s sh = .ok (shd.objType == "nurbsCurve") := by
      unfold curve_helper.is_nurbs_curve
      rw [hshex, hsh]
    constructor
    · intro hc
      have hcc : (shd.objType == "nurbsCurve") = true := by simpa using hc
      have hres : curve_helper.resolveCurve s node = .ok sh := by
        unfold curve_helper.resolveCurve
        rw [hisn, hbb, hlist]
        simp only [List.headD_cons]
        rw [hisn2, hcc]
      refine ⟨?_, ?_, hres, ?_⟩
      · unfold curve_helper.get_cvs_number
        rw [hne, hres]
        simp [hsh]
      · unfold curve_helper.get_curve_length
        rw [hne, hres]
        simp [hsh]
      · intro source srcd temp oracle hsrc hfresh hwf
        exact get_nearest_point_ok_aux s node source temp sh oracle srcd hnex hres hsrc hfresh hwf
    · intro hc
      have hcc : (shd.objType == "nurbsCurve") = false := by simpa using hc
      have hres : curve_helper.resolveCurve s node =
          .error (.valueError "node is not a nurbsCurve") := by
        unfold curve_helper.resolveCurve
        rw [hisn, hbb, hlist]
        simp only [List.headD_cons]
        rw [hisn2, hcc]
      refine ⟨?_, ?_, ?_⟩
      · unfold curve_helper.get_cvs_number
        rw [hne, hres]
      · unfold curve_helper.get_curve_length
        rw [hne, hres]
      · intro source srcd temp oracle hsrc
        have hsrce : curve_helper.node_exists s source = .ok () := by
          unfold curve_helper.node_exists curveObjExists
          rw [hsrc]
          rfl
        unfold curve_helper.get_nearest_point_on_curve
        rw [hne, hsrce, hres]
  · intro hb hshapes
    have hbb : (nd.objType == "nurbsCurve") = false := by simpa using hb
    have hlist : listRelativesShapes s node = none := by
      unfold listRelativesShapes
      rw [h]
      simp [hshapes]
    have hres : curve_helper.resolveCurve s node =
        .error (.typeError "NoneType object is not subscriptable") := by
      unfold curve_helper.resolveCurve
      rw [hisn, hbb, hlist]
    refine ⟨?_, ?_, ?_⟩
    · unfold curve_helper.get_cvs_number
      rw [hne, hres]
    · unfold curve_helper.get_curve_length
      rw [hne, hres]
    · intro source srcd temp oracle hsrc
      have hsrce : curve_helper.node_exists s source = .ok () := by
        unfold curve_helper.node_exists curveObjExists
        rw [hsrc]
        rfl
      unfold curve_helper.get_nearest_point_on_curve
      rw [hne, hsrce, hres]

/-- Witness for the amended C6: the transform `curve1` resolves to the nurbs
shape `curveShape1` and the queries operate on it; the transform `poly1`
resolves to the mesh shape and raises the wrong-type ValueError. -/
theorem curve_resolve_validate_witness :
    cScene.findNode "curve1" =
      some ⟨"curve1", "transform", ["curveShape1"], 0, 0, (0, 0, 0), (0, 0, 0)⟩ ∧
    (curve_helper.get_cvs_number cScene "curve1" = .ok 4 ∧
     curve_helper.get_curve_length cScene "curve1" = .ok 7 ∧
     curve_helper.resolveCurve cScene "curve1" = .ok "curveShape1") ∧
    (curve_helper.get_cvs_number cScene "poly1" =
       .error (.valueError "node is not a nurbsCurve") ∧
     curve_helper.get_curve_length cScene "poly1" =
       .error (.valueError "node is not a nurbsCurve")) :=
  ⟨by decide,
   by
     have hmain := curve_resolve_validate cScene "curve1"
       ⟨"curve1", "transform", ["curveShape1"], 0, 0, (0, 0, 0), (0, 0, 0)⟩ (by decide)
     have hb := (hmain.2.1 "curveShape1" []
       ⟨"curveShape1", "nurbsCurve", [], 4, 7, (0, 0, 0), (0, 0, 0)⟩
       (by decide) (by decide) (by decide)).1 (by decide)
     exact ⟨hb.1, hb.2.1, hb.2.2.1⟩,
   by
     have hmain := curve_resolve_validate cScene "poly1"
       ⟨"poly1", "transform", ["meshShape1"], 0, 0, (0, 0, 0), (0, 0, 0)⟩ (by decide)
     have hb := (hmain.2.1 "meshShape1" []
       ⟨"meshShape1", "mesh", [], 0, 0, (0, 0, 0), (0, 0, 0)⟩
       (by decide) (by decide) (by decide)).2 (by decide)
     exact ⟨hb.1, hb.2.1⟩⟩

/-- Counterexample to C1 as stated: `connect_trs` is a mutating operation and
`a.translateX` does not exist, yet no domain error is raised before issuing a
host command — the `connectAttr` host command IS issued (and only then
rejected by the host), violating "on a violated precondition no host mutation
command is ever issued". -/
theorem mutating_guard_policy_counterexample :
    objExistsPlug cxScene "a" "translateX" = false ∧
    attribute_helper.connect_trs cxScene "a" "b" true =
      (.error (.hostError "connectAttr: source plug not found"),
       [.connectAttrCmd ⟨"a", "translateX"⟩ ⟨"b", "translateX"⟩ true]) :=
  ⟨by decide, by rfl⟩

/-- Claim C1 (amended): the mutating free functions of `attribute_helper.py`
other than the `connect_*` family raise a ValueError and issue no host
command when the named attribute is missing (or already exists, for
`add_attr` / `create_spacer`); the `AttributeHelper` class mutators return
early (`False` / `None`) without raising — only `delete_attribute` and
`add_attribute` raise — and likewise issue no host command when their guard
fails; the `connect_*` functions of both modules perform no
attribute-existence guard and issue `connectAttr` host commands even when the
attributes are missing. -/
theorem mutating_guard_policy (s : AttrScene) (node attr source target : String)
    (v : ℚ) (cb force : Bool) :
    (objExistsPlug s node attr = false →
      attribute_helper.set_attr s node attr v =
        (.error (.valueError "attribute does not exists in node"), []) ∧
      attribute_helper.delete_attr s node attr =
        (.error (.valueError "attribute does not exists in node"), []) ∧
      attribute_helper.lock_attr s node attr =
        (.error (.valueError "attribute does not exists in node"), []) ∧
      attribute_helper.un_lock_attr s node attr =
        (.error (.valueError "attribute does not exists in node"), []) ∧
      attribute_helper.toogle_lock_attr s node attr =
        (.error (.valueError "attribute does not exists in node"), []) ∧
      attribute_helper.hide_attr s node attr =
        (.error (.valueError "attribute does not exists in node"), []) ∧
      attribute_helper.un_hide_attr s node attr =
        (.error (.valueError "attribute does not exists in node"), []) ∧
      attribute_helper.lock_and_hide_attr s node attr =
        (.error (.valueError "attribute does not exists in node"), []) ∧
      attribute_helper.delete_connection s node attr =
        (.error (.valueError "attribute does not exists in node"), []) ∧
      attributes_lib.AttributeHelper.set_attribute_value s node attr v =
        (.ok (some false, s), []) ∧
      attributes_lib.AttributeHelper.lock_attribute s node attr true =
        (.ok (some false, s), []) ∧
      attributes_lib.AttributeHelper.hide_attribute s node attr true =
        (.ok (none, s), []) ∧
      attributes_lib.AttributeHelper.delete_attribute s node attr =
        (.error (.runtimeError "Attribute no exists in object"), []) ∧
      attributes_lib.delete_connection s node attr =
        (.error (.runtimeError "Attribute no exists in object"), [])) ∧
    (objExistsPlug s node attr = true →
      attribute_helper.add_attr s node attr cb =
        (.error (.valueError "attribute already exists in node"), []) ∧
      attribute_helper.create_spacer s node attr =
        (.error (.valueError "spacer already exists in node"), []) ∧
      attributes_lib.AttributeHelper.add_attribute s node attr =
        (.error (.runtimeError "Attribute already exists in object"), [])) ∧
    ((attribute_helper.connect_trs s source target force).2 ≠ []) ∧
    ((attribute_helper.connect_translate s source target force).2 ≠ []) ∧
    (objExistsPlug s source "translateX" = false →
      objExistsPlug s target "translateX" = false →
      (attributes_lib.connect_trs s source target force).2 ≠ [] ∧
      (attributes_lib.connect_translate s source target force).2 ≠ []) := by
  have hconnNonempty : ∀ (s0 : AttrScene) (c : HostCmd) (cs : List HostCmd),
      (runCmds s0 (c :: cs)).2 ≠ [] := by
    intro s0 c cs
    rcases happ : applyCmd s0 c with e | s2 <;> simp [runCmds, happ]
  refine ⟨?_, ?_, ?_, ?_, ?_⟩
  · intro h
    refine ⟨?_, ?_, ?_, ?_, ?_, ?_, ?_, ?_, ?_, ?_, ?_, ?_, ?_, ?_⟩
    · simp [attribute_helper.set_attr, attribute_helper.is_attr, h]
    · simp [attribute_helper.delete_attr, attribute_helper.is_attr, h]
    · simp [attribute_helper.lock_attr, attribute_helper.is_attr, h]
    · simp [attribute_helper.un_lock_attr, attribute_helper.is_attr, h]
    · simp [attribute_helper.toogle_lock_attr, attribute_helper.is_attr, h]
    · simp [attribute_helper.hide_attr, attribute_helper.is_attr, h]
    · simp [attribute_helper.un_hide_attr, attribute_helper.is_attr, h]
    · simp [attribute_helper.lock_and_hide_attr, attribute_helper.is_attr, h]
    · simp [attribute_helper.delete_connection, attribute_helper.is_attr, h]
    · simp [attributes_lib.AttributeHelper.set_attribute_value,
        attributes_lib.AttributeHelper.attribute_exists, h]
    · simp [attributes_lib.AttributeHelper.lock_attribute,
        attributes_lib.AttributeHelper.attribute_exists, h]
    · simp [attributes_lib.AttributeHelper.hide_attribute,
        attributes_lib.AttributeHelper.attribute_exists, h]
    · simp [attributes_lib.AttributeHelper.delete_attribute,
        attributes_lib.AttributeHelper.attribute_exists, h]
    · simp [attributes_lib.delete_connection,
        attributes_lib.AttributeHelper.attribute_exists, h]
  · intro h
    refine ⟨?_, ?_, ?_⟩
    · simp [attribute_helper.add_attr, h]
    · simp [attribute_helper.create_spacer, h]
    · simp [attributes_lib.AttributeHelper.add_attribute,
        attributes_lib.AttributeHelper.attribute_exists, h]
  · unfold attribute_helper.connect_trs trsChannels
    simp only [List.map_cons]
    exact hconnNonempty s _ _
  · unfold attribute_helper.connect_translate
    simp only [List.map_cons]
    exact hconnNonempty s _ _
  · intro hsrc htgt
    have hlock : ∀ obj, objExistsPlug s obj "translateX" = false →
        attributes_lib.AttributeHelper.is_attribute_locked s obj "translateX" = false := by
      intro obj hobj
      simp [attributes_lib.AttributeHelper.is_attribute_locked,
        attributes_lib.AttributeHelper.attribute_exists, hobj]
    constructor
    · unfold attributes_lib.connect_trs trsChannels
      rcases happ : applyCmd s (.connectAttrCmd ⟨source, "translateX"⟩
          ⟨target, "translateX"⟩ force) with e | s2 <;>
        simp [attributes_lib.connect_trs_loop, hlock source hsrc, hlock target htgt, happ]
    · unfold attributes_lib.connect_translate
      rcases happ : applyCmd s (.connectAttrCmd ⟨source, "translateX"⟩
          ⟨target, "translateX"⟩ force) with e | s2 <;>
        simp [attributes_lib.connect_axis_loop, hlock target htgt, happ]

/-- Witness for the amended C1 at concrete scenes: a missing attribute makes
`set_attr` raise with no commands while `set_attribute_value` returns `False`
with no commands; an existing attribute makes `add_attr` raise with no
commands; both `connect_trs` versions issue commands despite missing
attributes. -/
theorem mutating_guard_policy_witness :
    (objExistsPlug cxScene "a" "foo" = false ∧
      attribute_helper.set_attr cxScene "a" "foo" 5 =
        (.error (.valueError "attribute does not exists in node"), []) ∧
      attributes_lib.AttributeHelper.set_attribute_value cxScene "a" "foo" 5 =
        (.ok (some false, cxScene), [])) ∧
    (objExistsPlug exScene "ctrl" "foo" = true ∧
      attribute_helper.add_attr exScene "ctrl" "foo" false =
        (.error (.valueError "attribute already exists in node"), [])) ∧
    (attribute_helper.connect_trs cxScene "a" "b" true).2 ≠ [] ∧
    (attributes_lib.connect_trs cxScene "a" "b" true).2 ≠ [] := by
  have h := mutating_guard_policy cxScene "a" "foo" "a" "b" 5 false true
  have h2 := mutating_guard_policy exScene "ctrl" "foo" "a" "b" 5 false true
  obtain ⟨c1, c2, c3, c4, c5⟩ := h
  obtain ⟨m1, m2, m3, m4, m5, m6, m7, m8, m9, m10, m11, m12, m13, m14⟩ :=
    c1 (by decide)
  exact ⟨⟨by decide, m1, m10⟩, ⟨by decide, (h2.2.1 (by decide)).1⟩, c3,
    (c5 (by decide) (by decide)).1⟩

/-- Counterexample to C4 as stated: `amount` is a user-defined settable
double attribute with current value 5 whose queried default value is 0, yet
`reset_default_values` completes without setting it (no host command at all):
the `if default_value:` truthiness guard skips a zero default. -/
theorem reset_default_values_counterexample :
    AttrScene.findAttr cx4 "ctrl4" "amount" =
      some { name := "amount", value := 5, locked := false, keyable := true, channelBox := false, attrType := "double", defaultValue := 0, settable := true, userDefined := true } ∧
    attribute_helper.reset_default_values cx4 "ctrl4" = (.ok cx4, []) :=
  ⟨by rfl, by rfl⟩

theorem find?_name_of_mem {α : Type} (l : List α) (nm : α → String) (x : α)
    (hmem : x ∈ l) (hnodup : (l.map nm).Nodup) :
    l.find? (fun y => nm y == nm x) = some x := by
  induction l with
  | nil => cases hmem
  | cons y ys ih =>
    have hnd := hnodup
    simp only [List.map_cons, List.nodup_cons] at hnd
    rcases List.mem_cons.mp hmem with heq | hmem2
    · subst heq
      exact List.find?_cons_of_pos ys (by simp)
    · have hxy : (nm y == nm x) = false := by
        have hin : nm x ∈ ys.map nm := List.mem_map_of_mem nm hmem2
        have hne2 : nm y ≠ nm x := fun hcontra => hnd.1 (hcontra ▸ hin)
        simpa using hne2
      have hneg : ¬((fun y => nm y == nm x) y = true) := by simp [hxy]
      rw [List.find?_cons_of_neg ys hneg]
      exact ih hmem2 hnd.2

theorem listAttr_mem_findAttr (s : AttrScene) (node : String) (ndta : NodeData)
    (hnd : s.findNode node = some ndta)
    (hnodup : (ndta.attrs.map (fun ad => ad.name)).Nodup)
    (l : List String) (hl : listAttrUserDefinedSettable s node = some l) :
    ∀ a ∈ l, ∃ ad, s.findAttr node a = some ad ∧
      ad.userDefined = true ∧ ad.settable = true := by
  intro a ha
  unfold listAttrUserDefinedSettable at hl
  rw [hnd] at hl
  simp only at hl
  by_cases he : ((ndta.attrs.filter (fun ad => ad.userDefined && ad.settable)).map
      (fun ad => ad.name)).isEmpty
  · rw [if_pos he] at hl
    cases hl
  · rw [if_neg he] at hl
    have hleq := Option.some.inj hl
    rw [← hleq] at ha
    obtain ⟨ad, hadf, hname⟩ := List.mem_map.mp ha
    have hadmem : ad ∈ ndta.attrs := List.mem_of_mem_filter hadf
    have hp : (ad.userDefined && ad.settable) = true := by
      simpa using List.of_mem_filter hadf
    refine ⟨ad, ?_, ?_, ?_⟩
    · unfold AttrScene.findAttr
      rw [hnd]
      simp only [Option.some_bind]
      have hfind := find?_name_of_mem ndta.attrs (fun ad => ad.name) ad hadmem hnodup
      rw [← hname]
      exact hfind
    · exact (Bool.and_eq_true _ _ |>.mp hp).1
    · exact (Bool.and_eq_true _ _ |>.mp hp).2

theorem findAttr_mem_listAttr (s : AttrScene) (node : String) (ndta : NodeData)
    (hnd : s.findNode node = some ndta) (a : String) (ad : AttrData)
    (hfa : s.findAttr node a = some ad)
    (hud : ad.userDefined = true) (hst : ad.settable = true) :
    ∃ l, listAttrUserDefinedSettable s node = some l ∧ a ∈ l := by
  have hadmem : ad ∈ ndta.attrs := by
    unfold AttrScene.findAttr at hfa
    rw [hnd] at hfa
    simp only [Option.some_bind] at hfa
    exact List.mem_of_find?_eq_some hfa
  have hname : ad.name = a := findAttr_name s node a ad hfa
  have hadf : ad ∈ ndta.attrs.filter (fun ad => ad.userDefined && ad.settable) :=
    List.mem_filter.mpr ⟨hadmem, by rw [hud, hst]; rfl⟩
  have hmapmem : a ∈ (ndta.attrs.filter (fun ad => ad.userDefined && ad.settable)).map
      (fun ad => ad.name) := by
    rw [← hname]
    exact List.mem_map_of_mem _ hadf
  have hne : ((ndta.attrs.filter (fun ad => ad.userDefined && ad.settable)).map
      (fun ad => ad.name)).isEmpty = false := by
    rcases hmap : (ndta.attrs.filter (fun ad => ad.userDefined && ad.settable)).map
        (fun ad => ad.name) with _ | ⟨x, xs⟩
    · rw [hmap] at hmapmem; cases hmapmem
    · rw [hmap]; rfl
  refine ⟨_, ?_, hmapmem⟩
  unfold listAttrUserDefinedSettable
  rw [hnd]
  simp only [hne, Bool.false_eq_true, if_false]

theorem resetTransformLoop_spec (node : String) :
    ∀ (lst : List (String × ℚ)) (s : AttrScene),
      (∀ cv ∈ lst, objExistsPlug s node cv.1 = true) →
      ∃ s2 tr, attribute_helper.resetTransformLoop s node lst = (.ok s2, tr) ∧
        (∀ n a, (n ≠ node ∨ a ∉ lst.map Prod.fst) → s2.findAttr n a = s.findAttr n a) ∧
        (∀ nn, listAttrUserDefinedSettable s2 nn = listAttrUserDefinedSettable s nn) ∧
        ((lst.map Prod.fst).Nodup →
          ∀ cv ∈ lst, ∀ ad, s.findAttr node cv.1 = some ad →
            s2.findAttr node cv.1 =
              some (if ad.settable then { ad with value := cv.2 } else ad)) := by
  intro lst
  induction lst with
  | nil =>
    intro s hex
    exact ⟨s, [], rfl, fun n a h => rfl, fun nn => rfl,
      fun hnd cv hcv => absurd hcv (List.not_mem_nil cv)⟩
  | cons cv0 rest ih =>
    intro s hex
    obtain ⟨ch, v⟩ := cv0
    have hexch : objExistsPlug s node ch = true := hex (ch, v) (List.mem_cons_self _ _)
    rcases hfa : s.findAttr node ch with _ | ad0
    · exfalso
      unfold objExistsPlug at hexch
      rw [hfa] at hexch
      cases hexch
    · have hname0 : ad0.name = ch := findAttr_name s node ch ad0 hfa
      have hgs : getAttrSettable s node ch = .ok ad0.settable := by
        unfold getAttrSettable
        rw [hfa]
      by_cases hset : ad0.settable = true
      · have happ := applyCmd_setValue_ok s node ch v hexch
        have hexrest : ∀ cv ∈ rest, objExistsPlug (setValueScene s node ch v) node cv.1 = true := by
          intro cv hcv
          rw [objExistsPlug_setValue]
          exact hex cv (List.mem_cons_of_mem _ hcv)
        obtain ⟨s2, tr, hloop, hunt, hlist, hchan⟩ := ih (setValueScene s node ch v) hexrest
        refine ⟨s2, .setAttrValue ⟨node, ch⟩ v :: tr, ?_, ?_, ?_, ?_⟩
        · simp [attribute_helper.resetTransformLoop, hgs, hset, happ, hloop]
        · intro n a hna
          have hrest : n ≠ node ∨ a ∉ rest.map Prod.fst := by
            rcases hna with h | h
            · exact Or.inl h
            · right
              intro hc
              exact h (by simp only [List.map_cons]; exact List.mem_cons_of_mem _ hc)
          rw [hunt n a hrest]
          apply findAttr_setValue_other
          rcases hna with h | h
          · exact Or.inl h
          · right
            intro hac
            exact h (by simp only [List.map_cons]; rw [hac]; exact List.mem_cons_self _ _)
        · intro nn
          rw [hlist nn, listAttr_setValue]
        · intro hnd cv hcv ad had
          have hnd2 : ch ∉ rest.map Prod.fst ∧ (rest.map Prod.fst).Nodup := by
            simp only [List.map_cons, List.nodup_cons] at hnd
            exact hnd
          rcases List.mem_cons.mp hcv with heq | hmem
          · have hch : cv = (ch, v) := heq
            subst hch
            simp only at had
            have hadeq : ad = ad0 := by
              rw [hfa] at had
              exact (Option.some.inj had).symm
            subst hadeq
            have h1 : (setValueScene s node ch v).findAttr node ch =
                some { ad with value := v } := by
              rw [findAttr_setValue, hfa]
              have hcond : ((node == node) && (ad.name == ch)) = true := by
                simp [hname0]
              simp only [Option.map_some', hcond, if_true]
            have h2 : s2.findAttr node ch = (setValueScene s node ch v).findAttr node ch :=
              hunt node ch (Or.inr hnd2.1)
            simp only
            rw [h2, h1, if_pos hset]
          · have hne : cv.1 ≠ ch := by
              intro hc
              exact hnd2.1 (hc ▸ List.mem_map_of_mem Prod.fst hmem)
            have had2 : (setValueScene s node ch v).findAttr node cv.1 = some ad := by
              rw [findAttr_setValue_other s node ch v node cv.1 (Or.inr hne)]
              exact had
            exact hchan hnd2.2 cv hmem ad had2
      · have hsetF : ad0.settable = false := by
          rcases hb : ad0.settable with _ | _
          · rfl
          · exact absurd hb hset
        obtain ⟨s2, tr, hloop, hunt, hlist, hchan⟩ :=
          ih s (fun cv hcv => hex cv (List.mem_cons_of_mem _ hcv))
        refine ⟨s2, tr, ?_, ?_, hlist, ?_⟩
        · simp [attribute_helper.resetTransformLoop, hgs, hsetF, hloop]
        · intro n a hna
          apply hunt
          rcases hna with h | h
          · exact Or.inl h
          · right
            intro hc
            exact h (by simp only [List.map_cons]; exact List.mem_cons_of_mem _ hc)
        · intro hnd cv hcv ad had
          have hnd2 : ch ∉ rest.map Prod.fst ∧ (rest.map Prod.fst).Nodup := by
            simp only [List.map_cons, List.nodup_cons] at hnd
            exact hnd
          rcases List.mem_cons.mp hcv with heq | hmem
          · have hch : cv = (ch, v) := heq
            subst hch
            simp only at had
            have hadeq : ad = ad0 := by
              rw [hfa] at had
              exact (Option.some.inj had).symm
            subst hadeq
            simp only
            rw [hunt node ch (Or.inr hnd2.1), had, if_neg (by rw [hsetF]; simp)]
          · exact hchan hnd2.2 cv hmem ad had

theorem resetUserAttrsLoop_spec (node : String) :
    ∀ (attrs : List String) (s : AttrScene),
      (∀ a ∈ attrs, objExistsPlug s node a = true) →
      ∃ s2 tr, attribute_helper.resetUserAttrsLoop s node attrs = (.ok s2, tr) ∧
        (∀ n a, (n ≠ node ∨ a ∉ attrs) → s2.findAttr n a = s.findAttr n a) ∧
        (attrs.Nodup →
          ∀ a ∈ attrs, ∀ ad, s.findAttr node a = some ad →
            s2.findAttr node a = some (userReset ad)) := by
  intro attrs
  induction attrs with
  | nil =>
    intro s hex
    exact ⟨s, [], rfl, fun n a h => rfl,
      fun hnd a ha => absurd ha (List.not_mem_nil a)⟩
  | cons a0 rest ih =>
    intro s hex
    have hexa : objExistsPlug s node a0 = true := hex a0 (List.mem_cons_self _ _)
    rcases hfa : s.findAttr node a0 with _ | ad0
    · exfalso
      unfold objExistsPlug at hexa
      rw [hfa] at hexa
      cases hexa
    · have hname0 : ad0.name = a0 := findAttr_name s node a0 ad0 hfa
      have hty : getAttrType s node a0 = .ok ad0.attrType := by
        unfold getAttrType
        rw [hfa]
      have hdef : addAttrQueryDefault s node a0 = .ok ad0.defaultValue := by
        unfold addAttrQueryDefault
        rw [hfa]
      have hskip : ∀ h2 : attribute_helper.resetUserAttrsLoop s node (a0 :: rest) =
            attribute_helper.resetUserAttrsLoop s node rest,
          userReset ad0 = ad0 →
          ∃ s2 tr, attribute_helper.resetUserAttrsLoop s node (a0 :: rest) = (.ok s2, tr) ∧
            (∀ n a, (n ≠ node ∨ a ∉ (a0 :: rest)) → s2.findAttr n a = s.findAttr n a) ∧
            ((a0 :: rest).Nodup →
              ∀ a ∈ (a0 :: rest), ∀ ad, s.findAttr node a = some ad →
                s2.findAttr node a = some (userReset ad)) := by
        intro h2 hur
        obtain ⟨s2, tr, hloop, hunt, hchan⟩ :=
          ih s (fun a ha => hex a (List.mem_cons_of_mem _ ha))
        refine ⟨s2, tr, by rw [h2, hloop], ?_, ?_⟩
        · intro n a hna
          apply hunt
          rcases hna with h | h
          · exact Or.inl h
          · exact Or.inr (fun hc => h (List.mem_cons_of_mem _ hc))
        · intro hnd a ha ad had
          have hnd2 : a0 ∉ rest ∧ rest.Nodup := by
            simpa [List.nodup_cons] using hnd
          rcases List.mem_cons.mp ha with heq | hmem
          · subst heq
            have hadeq : ad = ad0 := by
              rw [hfa] at had
              exact (Option.some.inj had).symm
            subst hadeq
            rw [hunt node a (Or.inr hnd2.1), had, hur]
          · exact hchan hnd2.2 a hmem ad had
      by_cases hm : ad0.attrType = "message"
      · have hmb : (ad0.attrType != "message") = false := by simp [hm]
        have h2 : attribute_helper.resetUserAttrsLoop s node (a0 :: rest) =
            attribute_helper.resetUserAttrsLoop s node rest := by
          simp [attribute_helper.resetUserAttrsLoop, hty, hmb]
        exact hskip h2 (by unfold userReset; rw [hmb]; simp)
      · have hmb : (ad0.attrType != "message") = true := by simpa using hm
        by_cases hst : ad0.attrType = "string"
        · have hsb : (ad0.attrType != "string") = false := by simp [hst]
          have h2 : attribute_helper.resetUserAttrsLoop s node (a0 :: rest) =
              attribute_helper.resetUserAttrsLoop s node rest := by
            simp [attribute_helper.resetUserAttrsLoop, hty, hmb, hsb]
          exact hskip h2 (by unfold userReset; rw [hmb, hsb]; simp)
        · have hsb : (ad0.attrType != "string") = true := by simpa using hst
          by_cases hd : ad0.defaultValue = 0
          · have hdb : (ad0.defaultValue != 0) = false := by simp [hd]
            have h2 : attribute_helper.resetUserAttrsLoop s node (a0 :: rest) =
                attribute_helper.resetUserAttrsLoop s node rest := by
              simp [attribute_helper.resetUserAttrsLoop, hty, hmb, hsb, hdef, hdb]
            exact hskip h2 (by unfold userReset; rw [hmb, hsb, hdb]; simp)
          · have hdb : (ad0.defaultValue != 0) = true := by simpa using hd
            have happ := applyCmd_setValue_ok s node a0 ad0.defaultValue hexa
            have hexrest : ∀ a ∈ rest,
                objExistsPlug (setValueScene s node a0 ad0.defaultValue) node a = true := by
              intro a ha
              rw [objExistsPlug_setValue]
              exact hex a (List.mem_cons_of_mem _ ha)
            obtain ⟨s2, tr, hloop, hunt, hchan⟩ :=
              ih (setValueScene s node a0 ad0.defaultValue) hexrest
            refine ⟨s2, .setAttrValue ⟨node, a0⟩ ad0.defaultValue :: tr, ?_, ?_, ?_⟩
            · simp [attribute_helper.resetUserAttrsLoop, hty, hmb, hsb, hdef, hdb,
                happ, hloop]
            · intro n a hna
              have hrest : n ≠ node ∨ a ∉ rest := by
                rcases hna with h | h
                · exact Or.inl h
                · exact Or.inr (fun hc => h (List.mem_cons_of_mem _ hc))
              rw [hunt n a hrest]
              apply findAttr_setValue_other
              rcases hna with h | h
              · exact Or.inl h
              · exact Or.inr (fun hac => h (hac ▸ List.mem_cons_self _ _))
            · intro hnd a ha ad had
              have hnd2 : a0 ∉ rest ∧ rest.Nodup := by
                simpa [List.nodup_cons] using hnd
              rcases List.mem_cons.mp ha with heq | hmem
              · subst heq
                have hadeq : ad = ad0 := by
                  rw [hfa] at had
                  exact (Option.some.inj had).symm
                subst hadeq
                have h1 : (setValueScene s node a ad.defaultValue).findAttr node a =
                    some { ad with value := ad.defaultValue } := by
                  rw [findAttr_setValue, hfa]
                  have hcond : ((node == node) && (ad.name == a)) = true := by
                    simp [hname0]
                  simp only [Option.map_some', hcond, if_true]
                rw [hunt node a (Or.inr hnd2.1), h1]
                unfold userReset
                rw [hmb, hsb, hdb]
                simp
              · have hne : a ≠ a0 := fun hc => hnd2.1 (hc ▸ hmem)
                have had2 : (setValueScene s node a0 ad0.defaultValue).findAttr node a =
                    some ad := by
                  rw [findAttr_setValue_other s node a0 ad0.defaultValue node a (Or.inr hne)]
                  exact had
                exact hchan hnd2.2 a hmem ad had2

/-- Claim C4 (amended): on an existing node carrying the nine transform
channels as built-in (non-user-defined) attributes with unique attribute
names, `reset_default_values` sets every settable transform channel to its
reset value (1 for scale, 0 for translate/rotate), never sets any attribute
of type `message` or `string`, and sets every other user-defined settable
attribute to its queried default value exactly when that default is truthy
(nonzero); an attribute whose queried default is zero is left unchanged
(`userReset` encodes this per-attribute policy). -/
theorem reset_default_values_policy (s : AttrScene) (node : String) (ndta : NodeData)
    (hnd : s.findNode node = some ndta)
    (hnodup : (ndta.attrs.map (fun ad => ad.name)).Nodup)
    (hch : ∀ ch ∈ trsChannels, objExistsPlug s node ch = true)
    (hchud : ∀ ch ∈ trsChannels, ∀ ad, s.findAttr node ch = some ad →
      ad.userDefined = false) :
    ∃ s2 tr, attribute_helper.reset_default_values s node = (.ok s2, tr) ∧
      (∀ cv ∈ attribute_helper.transformResetValues, ∀ ad,
        s.findAttr node cv.1 = some ad →
        s2.findAttr node cv.1 = some (if ad.settable then { ad with value := cv.2 } else ad)) ∧
      (∀ a ad, s.findAttr node a = some ad → a ∉ trsChannels →
        ad.userDefined = true → ad.settable = true →
        s2.findAttr node a = some (userReset ad)) ∧
      (∀ a ad, s.findAttr node a = some ad → a ∉ trsChannels →
        ¬(ad.userDefined = true ∧ ad.settable = true) →
        s2.findAttr node a = some ad) := by
  have hfst : attribute_helper.transformResetValues.map Prod.fst = trsChannels := by rfl
  have hnode : objExistsNode s node = true := by
    unfold objExistsNode
    rw [hnd]
    rfl
  have hexT : ∀ cv ∈ attribute_helper.transformResetValues,
      objExistsPlug s node cv.1 = true := by
    intro cv hcv
    exact hch cv.1 (hfst ▸ List.mem_map_of_mem Prod.fst hcv)
  obtain ⟨smid, tr1, hT, hTunt, hTlist, hTchan⟩ :=
    resetTransformLoop_spec node attribute_helper.transformResetValues s hexT
  have hTnodup : (attribute_helper.transformResetValues.map Prod.fst).Nodup := by
    rw [hfst]
    decide
  have hlistmid : listAttrUserDefinedSettable smid node =
      listAttrUserDefinedSettable s node := hTlist node
  rcases hl : listAttrUserDefinedSettable s node with _ | l
  · refine ⟨smid, tr1, ?_, ?_, ?_, ?_⟩
    · unfold attribute_helper.reset_default_values
      simp [hnode, andThen, hT, hlistmid, hl]
    · intro cv hcv ad had
      exact hTchan hTnodup cv hcv ad had
    · intro a ad had hnotch hud hst
      obtain ⟨l', hl', _⟩ := findAttr_mem_listAttr s node ndta hnd a ad had hud hst
      rw [hl] at hl'
      cases hl'
    · intro a ad had hnotch hnot
      rw [hTunt node a (Or.inr (by rw [hfst]; exact hnotch))]
      exact had
  · have hmem := listAttr_mem_findAttr s node ndta hnd hnodup l hl
    have hchnotl : ∀ ch ∈ trsChannels, ch ∉ l := by
      intro ch hchm hchl
      obtain ⟨ad', hfa', hud', _⟩ := hmem ch hchl
      have hudF := hchud ch hchm ad' hfa'
      rw [hud'] at hudF
      cases hudF
    have hexU : ∀ a ∈ l, objExistsPlug smid node a = true := by
      intro a ha
      obtain ⟨ad', hfa', _, _⟩ := hmem a ha
      have hanotch : a ∉ trsChannels := fun hc => hchnotl a hc ha
      have hsame : smid.findAttr node a = s.findAttr node a :=
        hTunt node a (Or.inr (by rw [hfst]; exact hanotch))
      unfold objExistsPlug
      rw [hsame, hfa']
      rfl
    obtain ⟨s2, tr2, hU, hUunt, hUchan⟩ := resetUserAttrsLoop_spec node l smid hexU
    have hlnodup : l.Nodup := by
      unfold listAttrUserDefinedSettable at hl
      rw [hnd] at hl
      simp only at hl
      by_cases he : ((ndta.attrs.filter (fun ad => ad.userDefined && ad.settable)).map
          (fun ad => ad.name)).isEmpty
      · rw [if_pos he] at hl
        cases hl
      · rw [if_neg he] at hl
        have hleq := Option.some.inj hl
        rw [← hleq]
        exact List.Nodup.sublist (List.Sublist.map _ (List.filter_sublist _)) hnodup
    refine ⟨s2, tr1 ++ tr2, ?_, ?_, ?_, ?_⟩
    · unfold attribute_helper.reset_default_values
      simp [hnode, andThen, hT, hlistmid, hl, hU]
    · intro cv hcv ad had
      have hchm : cv.1 ∈ trsChannels := hfst ▸ List.mem_map_of_mem Prod.fst hcv
      rw [hUunt node cv.1 (Or.inr (hchnotl cv.1 hchm))]
      exact hTchan hTnodup cv hcv ad had
    · intro a ad had hnotch hud hst
      obtain ⟨l', hl', hal'⟩ := findAttr_mem_listAttr s node ndta hnd a ad had hud hst
      rw [hl] at hl'
      have hll : l' = l := (Option.some.inj hl').symm
      subst hll
      have hmida : smid.findAttr node a = some ad := by
        rw [hTunt node a (Or.inr (by rw [hfst]; exact hnotch))]
        exact had
      exact hUchan hlnodup a hal' ad hmida
    · intro a ad had hnotch hnot
      have hanotl : a ∉ l := by
        intro hal
        obtain ⟨ad', hfa', hud', hst'⟩ := hmem a hal
        have hadeq : ad' = ad := by
          rw [had] at hfa'
          exact (Option.some.inj hfa').symm
        subst hadeq
        exact hnot ⟨hud', hst'⟩
      rw [hUunt node a (Or.inr hanotl),
        hTunt node a (Or.inr (by rw [hfst]; exact hnotch))]
      exact had

/-- Witness for the amended C4 on a concrete node with settable channels, a
nonzero-default user attribute, a zero-default user attribute and a
string-typed attribute. -/
theorem reset_default_values_policy_witness :
    cx4b.findNode "ctrl4" = some { name := "ctrl4", attrs := trsChannels.map (fun ch => { mkAttr ch with value := 2 }) ++ [{ name := "amount", value := 5, locked := false, keyable := true, channelBox := false, attrType := "double", defaultValue := 3, settable := true, userDefined := true }, { name := "zeroed", value := 7, locked := false, keyable := true, channelBox := false, attrType := "double", defaultValue := 0, settable := true, userDefined := true }, { name := "label", value := 0, locked := false, keyable := true, channelBox := false, attrType := "string", defaultValue := 4, settable := true, userDefined := true }] } ∧
    (∃ s2 tr, attribute_helper.reset_default_values cx4b "ctrl4" = (.ok s2, tr) ∧
      (∀ cv ∈ attribute_helper.transformResetValues, ∀ ad,
        cx4b.findAttr "ctrl4" cv.1 = some ad →
        s2.findAttr "ctrl4" cv.1 = some (if ad.settable then { ad with value := cv.2 } else ad)) ∧
      (∀ a ad, cx4b.findAttr "ctrl4" a = some ad → a ∉ trsChannels →
        ad.userDefined = true → ad.settable = true →
        s2.findAttr "ctrl4" a = some (userReset ad)) ∧
      (∀ a ad, cx4b.findAttr "ctrl4" a = some ad → a ∉ trsChannels →
        ¬(ad.userDefined = true ∧ ad.settable = true) →
        s2.findAttr "ctrl4" a = some ad)) :=
  ⟨by rfl,
   reset_default_values_policy cx4b "ctrl4"
     { name := "ctrl4", attrs := trsChannels.map (fun ch => { mkAttr ch with value := 2 }) ++ [{ name := "amount", value := 5, locked := false, keyable := true, channelBox := false, attrType := "double", defaultValue := 3, settable := true, userDefined := true }, { name := "zeroed", value := 7, locked := false, keyable := true, channelBox := false, attrType := "double", defaultValue := 0, settable := true, userDefined := true }, { name := "label", value := 0, locked := false, keyable := true, channelBox := false, attrType := "string", defaultValue := 4, settable := true, userDefined := true }] }
     (by rfl) (by decide) (by decide)
     (by
       intro ch hch ad had
       have hdec : (cx4b.findAttr "ctrl4" ch).all (fun ad => !ad.userDefined) = true := by
         fin_cases hch <;> decide
       rw [had] at hdec
       simpa using hdec)⟩
